import Mathlib

/-!
Verification of the command-submission engine of the emulated GeForce
graphics device (the FIFO command processor in hw/display/geforce.c).

The C code is embedded shallowly: machine integers are `Nat` with explicit
reduction modulo 2^32 wherever the C performs `uint32_t` arithmetic;
device memory (VRAM) and external physical memory are little-endian byte
functions `Nat → Nat`; every fallible loop is run on explicit fuel.  The
per-object-class graphics handlers (clip, m2mf, rop, ...) are outside the
command engine proper: in the C code they only read the channel record and
mutate per-channel accumulator fields plus memory, so the embedding is
parameterized by an arbitrary accumulator type `A` and an arbitrary family
`ClassOps A` of handler behaviors, and the theorems below hold for every
instantiation.
-/

/-- Value of 2^32, the modulus of `uint32_t` arithmetic. -/
def U32 : Nat := 4294967296

/-- Reduction modulo 2^32: the value of a C `uint32_t` computation. -/
def u32 (n : Nat) : Nat := n % U32

/-- Pointwise function update, used for memories and indexed arrays. -/
def fupd {β : Type} (f : Nat → β) (i : Nat) (v : β) : Nat → β :=
  fun j => if j = i then v else f j

/-- Load `k` bytes little-endian from a byte memory. -/
def loadLE (m : Nat → Nat) (a : Nat) : Nat → Nat
  | 0 => 0
  | k + 1 => m a % 256 + loadLE m (a + 1) k * 256

/-- Store `k` bytes of `v` little-endian into a byte memory. -/
def storeLE (m : Nat → Nat) (a v : Nat) : Nat → (Nat → Nat)
  | 0 => m
  | k + 1 => storeLE (fupd m a (v % 256)) (a + 1) (v / 256) k

/-- Byte memories the device can address: VRAM and external physical memory. -/
structure GMem where
  vram : Nat → Nat
  phys : Nat → Nat

/-- Subchannel binding state (struct GeForceSubchannel). -/
structure GSubchannel where
  object : Nat
  engine : Nat
  notifier : Nat

/-- Pending method-header state of a channel (struct GeForceDataState). -/
structure GDmaState where
  mthd : Nat
  subc : Nat
  mcnt : Nat
  ni : Bool

/-- Per-channel state (struct GeForceChannel).  The class-handler
accumulator fields (clip rectangle, rop, pattern, m2mf, d3d, ...) are
bundled into the abstract payload `acc : A`. -/
structure GChannel (A : Type) where
  subr_return : Nat
  subr_active : Bool
  dma_state : GDmaState
  schs : Nat → GSubchannel
  notify_pending : Bool
  notify_type : Nat
  acc : A

/-- Behaviors of the per-class graphics handlers.  Each handler reads the
channel record and returns new accumulator state and memory, which is
exactly the write footprint of the C handlers (they assign only `ch->`
accumulator fields and write memory through the DMA helpers). -/
structure ClassOps (A : Type) where
  clip : GChannel A → GMem → Nat → Nat → A × GMem
  m2mf : GChannel A → GMem → Nat → Nat → Nat → A × GMem
  rop : GChannel A → GMem → Nat → Nat → A × GMem
  patt : GChannel A → GMem → Nat → Nat → A × GMem
  gdi : GChannel A → GMem → Nat → Nat → A × GMem
  imageblit : GChannel A → GMem → Nat → Nat → A × GMem
  ifc : GChannel A → GMem → Nat → Nat → A × GMem
  surf2d : GChannel A → GMem → Nat → Nat → A × GMem
  d3d : GChannel A → GMem → Nat → Nat → Nat → A × GMem

/-- Device state (struct GeForceState), restricted to the fields the
command-submission engine reads or writes. -/
structure GState (A : Type) where
  card_type : Nat
  memsize : Nat
  ramin_flip : Nat
  class_mask : Nat
  mem : GMem
  fifo_ramht : Nat
  fifo_ramfc : Nat
  fifo_intr : Nat
  graph_intr : Nat
  graph_nsource : Nat
  graph_notify : Nat
  fifo_cache1_push1 : Nat
  fifo_cache1_put : Nat
  fifo_cache1_dma_instance : Nat
  fifo_cache1_dma_put : Nat
  fifo_cache1_dma_get : Nat
  fifo_cache1_ref_cnt : Nat
  fifo_cache1_pull0 : Nat
  fifo_cache1_semaphore : Nat
  fifo_cache1_method : Nat → Nat
  fifo_cache1_data : Nat → Nat
  channels : Nat → GChannel A
  current_time : Nat

variable {A : Type}

/-- geforce_vram_read8: in-bounds byte read, 0 beyond `memsize`. -/
def geforce_vram_read8 (s : GState A) (addr : Nat) : Nat :=
  let a := u32 addr
  if a < s.memsize then s.mem.vram a % 256 else 0

/-- geforce_vram_read32: little-endian 4-byte read, 0 beyond `memsize`. -/
def geforce_vram_read32 (s : GState A) (addr : Nat) : Nat :=
  let a := u32 addr
  if u32 (a + 3) < s.memsize then loadLE s.mem.vram a 4 else 0

/-- geforce_vram_write32: little-endian 4-byte write, dropped beyond `memsize`. -/
def geforce_vram_write32 (s : GState A) (addr val : Nat) : GState A :=
  let a := u32 addr
  if u32 (a + 3) < s.memsize then
    { s with mem := { s.mem with vram := storeLE s.mem.vram a (u32 val) 4 } }
  else s

/-- geforce_vram_write64: little-endian 8-byte write, dropped beyond `memsize`. -/
def geforce_vram_write64 (s : GState A) (addr val : Nat) : GState A :=
  let a := u32 addr
  if u32 (a + 7) < s.memsize then
    { s with mem := { s.mem with vram := storeLE s.mem.vram a (val % 2 ^ 64) 8 } }
  else s

/-- geforce_physical_read32: little-endian 4-byte read of external memory. -/
def geforce_physical_read32 (s : GState A) (addr : Nat) : Nat :=
  loadLE s.mem.phys (u32 addr) 4

/-- geforce_physical_write32: little-endian 4-byte write of external memory. -/
def geforce_physical_write32 (s : GState A) (addr val : Nat) : GState A :=
  { s with mem := { s.mem with phys := storeLE s.mem.phys (u32 addr) (u32 val) 4 } }

/-- geforce_physical_write64: little-endian 8-byte write of external memory. -/
def geforce_physical_write64 (s : GState A) (addr val : Nat) : GState A :=
  { s with mem := { s.mem with phys := storeLE s.mem.phys (u32 addr) (val % 2 ^ 64) 8 } }

/-- geforce_ramin_read32: VRAM read at the address XORed with `ramin_flip`. -/
def geforce_ramin_read32 (s : GState A) (addr : Nat) : Nat :=
  geforce_vram_read32 s (Nat.xor (u32 addr) s.ramin_flip)

/-- geforce_ramin_write32: VRAM write at the address XORed with `ramin_flip`. -/
def geforce_ramin_write32 (s : GState A) (addr val : Nat) : GState A :=
  geforce_vram_write32 s (Nat.xor (u32 addr) s.ramin_flip) val

/-- geforce_dma_pt_lookup: paged address translation.  The byte offset is
first adjusted by the descriptor's adjust field (word 0 shifted right by
20), then split into page index and page offset; the page-table entry is
the 32-bit word at byte offset `8 + 4 * index` of the descriptor. -/
def geforce_dma_pt_lookup (s : GState A) (object addr : Nat) : Nat :=
  let address_adj := u32 (addr + geforce_ramin_read32 s object / 2 ^ 20)
  let page_offset := Nat.land address_adj 0xFFF
  let page_index := address_adj / 2 ^ 12
  let page := Nat.land (geforce_ramin_read32 s (object + 8 + page_index * 4)) 0xFFFFF000
  Nat.lor page page_offset

/-- geforce_dma_lin_lookup: linear address translation, base plus adjust
plus offset modulo 2^32. -/
def geforce_dma_lin_lookup (s : GState A) (object addr : Nat) : Nat :=
  let adjust := geforce_ramin_read32 s object / 2 ^ 20
  let base := Nat.land (geforce_ramin_read32 s (object + 8)) 0xFFFFF000
  u32 (base + adjust + addr)

/-- geforce_dma_read32: resolve the descriptor's translation policy, then
read device or external memory at the resolved absolute address. -/
def geforce_dma_read32 (s : GState A) (object addr : Nat) : Nat :=
  let flags := geforce_ramin_read32 s object
  let addr_abs :=
    if Nat.land flags 0x00002000 ≠ 0 then geforce_dma_lin_lookup s object addr
    else geforce_dma_pt_lookup s object addr
  if Nat.land flags 0x00020000 ≠ 0 then geforce_physical_read32 s addr_abs
  else geforce_vram_read32 s addr_abs

/-- geforce_dma_write32: resolve the descriptor's translation policy, then
write device or external memory at the resolved absolute address. -/
def geforce_dma_write32 (s : GState A) (object addr val : Nat) : GState A :=
  let flags := geforce_ramin_read32 s object
  let addr_abs :=
    if Nat.land flags 0x00002000 ≠ 0 then geforce_dma_lin_lookup s object addr
    else geforce_dma_pt_lookup s object addr
  if Nat.land flags 0x00020000 ≠ 0 then geforce_physical_write32 s addr_abs val
  else geforce_vram_write32 s addr_abs val

/-- geforce_dma_write64: 8-byte variant of `geforce_dma_write32`. -/
def geforce_dma_write64 (s : GState A) (object addr val : Nat) : GState A :=
  let flags := geforce_ramin_read32 s object
  let addr_abs :=
    if Nat.land flags 0x00002000 ≠ 0 then geforce_dma_lin_lookup s object addr
    else geforce_dma_pt_lookup s object addr
  if Nat.land flags 0x00020000 ≠ 0 then geforce_physical_write64 s addr_abs val
  else geforce_vram_write64 s addr_abs val

/-- geforce_ramfc_address: base of the per-channel context record plus the
field offset; the base shift and record stride depend on the generation. -/
def geforce_ramfc_address (s : GState A) (chid offset : Nat) : Nat :=
  let ramfc :=
    if s.card_type < 0x40 then Nat.land s.fifo_ramfc 0xFFF * 2 ^ 8
    else Nat.land s.fifo_ramfc 0xFFF * 2 ^ 16
  let ramfc_ch_size := if s.card_type < 0x40 then 0x40 else 0x80
  u32 (ramfc + chid * ramfc_ch_size + offset)

/-- geforce_ramfc_write32. -/
def geforce_ramfc_write32 (s : GState A) (chid offset value : Nat) : GState A :=
  geforce_ramin_write32 s (geforce_ramfc_address s chid offset) value

/-- geforce_ramfc_read32. -/
def geforce_ramfc_read32 (s : GState A) (chid offset : Nat) : Nat :=
  geforce_ramin_read32 s (geforce_ramfc_address s chid offset)

/-- geforce_update_irq recomputes the PCI interrupt line from the pending
and enable registers; it changes no device register state, so on the
embedded state it is the identity. -/
def geforce_update_irq (s : GState A) : GState A := s

/-- XOR-fold worker: structural recursion on fuel, which strictly bounds
the number of iterations of the C hash loop (the argument shrinks by at
least one bit per step whenever `bits` is nonzero). -/
def ramhtHashFoldAux (bits : Nat) : Nat → Nat → Nat
  | 0, _ => 0
  | fuel + 1, x =>
    if x = 0 then 0
    else Nat.xor (Nat.land x (2 ^ bits - 1)) (ramhtHashFoldAux bits fuel (x / 2 ^ bits))

/-- XOR-fold of a handle in chunks of `bits` bits (the hash loop of
geforce_ramht_lookup: `while (x) { hash ^= x & mask; x >>= bits; }`).
`bits` is at least 9 at every call site, so the loop runs at most `x`
times and fuel `x` is exact. -/
def ramhtHashFold (bits x : Nat) : Nat := ramhtHashFoldAux bits x x

/-- Channel id embedded in a handle-table context word (generation
dependent bit position). -/
def ramhtCtxChid (s : GState A) (context : Nat) : Nat :=
  if s.card_type < 0x40 then Nat.land (context / 2 ^ 24) 0x1F
  else Nat.land (context / 2 ^ 23) 0x1F

/-- Object address embedded in a handle-table context word. -/
def ramhtObject (s : GState A) (context : Nat) : Nat :=
  if s.card_type < 0x40 then Nat.land context 0xFFFF * 2 ^ 4
  else Nat.land context 0xFFFFF * 2 ^ 4

/-- Engine id embedded in a handle-table context word. -/
def ramhtEngine (s : GState A) (context : Nat) : Nat :=
  if s.card_type < 0x40 then Nat.land (context / 2 ^ 16) 0xFF
  else Nat.land (context / 2 ^ 20) 0x7

/-- Probe-slot advance of geforce_ramht_lookup: 8 bytes forward, wrapping
to 0 at the table size. -/
def ramhtAdvance (ramht_size it : Nat) : Nat :=
  if it + 8 ≥ ramht_size then 0 else it + 8

/-- Match condition of the RAMHT probe at byte offset `it` of the table:
stored handle equal to the probed handle, and the context word's embedded
channel id equal to the requesting channel id. -/
def ramhtMatchAt (s : GState A) (handle chid ramht_addr it : Nat) : Prop :=
  geforce_ramin_read32 s (u32 (ramht_addr + it)) = handle ∧
  ramhtCtxChid s (geforce_ramin_read32 s (u32 (ramht_addr + it + 4))) = chid

instance (s : GState A) (handle chid ramht_addr it : Nat) :
    Decidable (ramhtMatchAt s handle chid ramht_addr it) := by
  unfold ramhtMatchAt
  infer_instance

/-- Pair decoded from the context word of the slot at byte offset `it`. -/
def ramhtResultAt (s : GState A) (ramht_addr it : Nat) : Nat × Nat :=
  (ramhtObject s (geforce_ramin_read32 s (u32 (ramht_addr + it + 4))),
    ramhtEngine s (geforce_ramin_read32 s (u32 (ramht_addr + it + 4))))

/-- Linear-probe loop of geforce_ramht_lookup, run on fuel; the caller
passes one unit of fuel per table slot, which is exactly the do-while
loop's bound of one full traversal back to the starting slot. -/
def ramhtProbe (s : GState A) (handle chid ramht_addr ramht_size : Nat) :
    Nat → Nat → Option (Nat × Nat)
  | 0, _ => none
  | fuel + 1, it =>
    if ramhtMatchAt s handle chid ramht_addr it then
      some (ramhtResultAt s ramht_addr it)
    else ramhtProbe s handle chid ramht_addr ramht_size fuel (ramhtAdvance ramht_size it)

/-- Handle-table base address `(fifo_ramht & 0xFFF) << 8`. -/
def ramhtAddrOf (s : GState A) : Nat := Nat.land s.fifo_ramht 0xFFF * 2 ^ 8

/-- Handle-table hash width `((fifo_ramht >> 16) & 0xFF) + 9`. -/
def ramhtBitsOf (s : GState A) : Nat := Nat.land (s.fifo_ramht / 2 ^ 16) 0xFF + 9

/-- Handle-table byte size, the uint32 value of `1 << bits << 3`: each
shift is reduced modulo 2^32 as in the C's 32-bit arithmetic, so a stored
width field of 0x14 or more (bits of 29 or more) wraps the size to zero. -/
def ramhtSizeOf (s : GState A) : Nat := u32 (u32 (2 ^ ramhtBitsOf s) * 8)

/-- Starting probe slot of geforce_ramht_lookup: XOR-fold the handle,
XOR in the low 4 bits of the channel id shifted to the top of the hash,
multiply by 8 for a byte offset (all in uint32 arithmetic). -/
def ramhtHashOf (s : GState A) (handle chid : Nat) : Nat :=
  u32 (Nat.xor (ramhtHashFold (ramhtBitsOf s) handle)
    (u32 (Nat.land chid 0xF * 2 ^ (ramhtBitsOf s - 4))) * 8)

/-- geforce_ramht_lookup: hash the handle and requesting channel id to a
starting slot, then probe linearly; `some (object, engine)` on success,
`none` when the probe returns to its starting slot unmatched (the C code
writes its out-parameters only on success).  The probe fuel is the slot
count, one unit per slot of the single full traversal of the do-while. -/
def geforce_ramht_lookup (s : GState A) (handle chid : Nat) : Option (Nat × Nat) :=
  ramhtProbe s handle chid (ramhtAddrOf s) (ramhtSizeOf s) (2 ^ ramhtBitsOf s)
    (ramhtHashOf s handle chid)

/-- Byte offset of the slot reached after `i` probe advances from `it`. -/
def ramhtSlot (ramht_size it : Nat) : Nat → Nat
  | 0 => it
  | i + 1 => ramhtSlot ramht_size (ramhtAdvance ramht_size it) i

/-- Replace one channel of the device state. -/
def setChannel (s : GState A) (chid : Nat) (ch : GChannel A) : GState A :=
  { s with channels := fupd s.channels chid ch }

/-- Replace one subchannel of a channel. -/
def setSub (ch : GChannel A) (subc : Nat) (sub : GSubchannel) : GChannel A :=
  { ch with schs := fupd ch.schs subc sub }

/-- Class-handler dispatch switch of geforce_execute_command (the
`switch (cls8)` over object classes); unknown class ids are logged as
unimplemented and ignored. -/
def classDispatch (ops : ClassOps A) (ch : GChannel A) (mem : GMem)
    (cls subc method param : Nat) : A × GMem :=
  let cls8 := cls % 256
  if cls8 = 0x19 then ops.clip ch mem method param
  else if cls8 = 0x39 then ops.m2mf ch mem subc method param
  else if cls8 = 0x43 then ops.rop ch mem method param
  else if cls8 = 0x44 then ops.patt ch mem method param
  else if cls8 = 0x4a then ops.gdi ch mem method param
  else if cls8 = 0x5f ∨ cls8 = 0x9f then ops.imageblit ch mem method param
  else if cls8 = 0x61 ∨ cls8 = 0x65 ∨ cls8 = 0x8a then ops.ifc ch mem method param
  else if cls8 = 0x62 then ops.surf2d ch mem method param
  else if cls8 = 0x97 then ops.d3d ch mem cls method param
  else (ch.acc, mem)

/-- Notifier patch performed by method-0 binding when the previously
bound object is a graphics object: write the subchannel's notifier
reference into a generation-dependent sub-field of the object's second
word. -/
def executeBindPatch (s : GState A) (chid subc : Nat) : GState A :=
  let ch := s.channels chid
  if (ch.schs subc).engine = 0x01 then
    let word1 := geforce_ramin_read32 s (u32 ((ch.schs subc).object + 0x4))
    let word1' :=
      if s.card_type < 0x40 then
        Nat.lor (Nat.land word1 0x0000FFFF) (u32 ((ch.schs subc).notifier / 2 ^ 4 * 2 ^ 16))
      else
        Nat.lor (Nat.land word1 0xFFF00000) ((ch.schs subc).notifier / 2 ^ 4)
    geforce_ramin_write32 s (u32 ((ch.schs subc).object + 0x4)) word1'
  else s

/-- Method-0 object binding of geforce_execute_command, continued: after
the notifier patch, resolve the handle, adopt the new binding on success
(binding untouched on failure), read the new object's notifier if it is a
graphics object.  Returns the new state and the software_method flag. -/
def executeBind (s : GState A) (chid subc param : Nat) : GState A × Bool :=
  let s1 := executeBindPatch s chid subc
  let s2 :=
    match geforce_ramht_lookup s1 param chid with
    | some (obj, eng) =>
      let ch1 := s1.channels chid
      setChannel s1 chid (setSub ch1 subc { ch1.schs subc with object := obj, engine := eng })
    | none => s1
  let sub2 := (s2.channels chid).schs subc
  if sub2.engine = 0x01 then
    let word1 := geforce_ramin_read32 s2 (u32 (sub2.object + 0x4))
    let nf :=
      if s2.card_type < 0x40 then u32 (word1 / 2 ^ 16 * 2 ^ 4)
      else Nat.land word1 0xFFFFF * 2 ^ 4
    (setChannel s2 chid (setSub (s2.channels chid) subc { sub2 with notifier := nf }), false)
  else if sub2.engine = 0x00 then (s2, true)
  else (s2, false)

/-- Graphics-engine path of geforce_execute_command for methods at least
0x40: optional indirect handle resolution for methods in [0x60, 0x80),
class dispatch, completion notification, and the notify-arm and
notifier-override methods. -/
def executeGraph (ops : ClassOps A) (s : GState A) (chid subc method param : Nat) :
    GState A :=
  let ch := s.channels chid
  let param1 :=
    if 0x060 ≤ method ∧ method < 0x080 then
      match geforce_ramht_lookup s param chid with
      | some (obj, _) => obj
      | none => param
    else param
  let cls := Nat.land (geforce_ramin_read32 s (u32 (ch.schs subc).object)) s.class_mask
  let pair := classDispatch ops ch s.mem cls subc method param1
  let s3 := { setChannel s chid { ch with acc := pair.1 } with mem := pair.2 }
  let ch3 := s3.channels chid
  let s4 :=
    if ch3.notify_pending then
      let s4a := setChannel s3 chid { ch3 with notify_pending := false }
      let s4b :=
        if Nat.land (geforce_ramin_read32 s4a (u32 (ch3.schs subc).notifier)) 0xFF ≠ 0x30 then
          let w1 := geforce_dma_write64 s4a (ch3.schs subc).notifier 0x0 s4a.current_time
          let w2 := geforce_dma_write32 w1 (ch3.schs subc).notifier 0x8 0
          geforce_dma_write32 w2 (ch3.schs subc).notifier 0xC 0
        else s4a
      if ch3.notify_type ≠ 0 then
        let s4c := geforce_update_irq { s4b with graph_intr := Nat.lor s4b.graph_intr 0x1 }
        { s4c with graph_nsource := Nat.lor s4c.graph_nsource 0x1, graph_notify := 0x00110000 }
      else s4b
    else s3
  let ch4 := s4.channels chid
  if method = 0x041 then
    setChannel s4 chid { ch4 with notify_pending := true, notify_type := param }
  else if method = 0x060 then
    setChannel s4 chid (setSub ch4 subc { ch4.schs subc with notifier := param1 })
  else s4

/-- Software-method deferral of geforce_execute_command: raise FIFO
interrupt source bit 0, set the pull0 flag, append the (method, param)
pair to the 64-entry circular queue, advance the put index by 4 wrapping
at GEFORCE_CACHE1_SIZE * 4 = 256. -/
def softwarePush (s : GState A) (subc method param : Nat) : GState A :=
  let s1 := geforce_update_irq { s with fifo_intr := Nat.lor s.fifo_intr 0x00000001 }
  let s2 := { s1 with fifo_cache1_pull0 := Nat.lor s1.fifo_cache1_pull0 0x00000100 }
  let s3 := { s2 with
    fifo_cache1_method := fupd s2.fifo_cache1_method (s2.fifo_cache1_put / 4)
      (Nat.lor (u32 (method * 2 ^ 2)) (u32 (subc * 2 ^ 13))),
    fifo_cache1_data := fupd s2.fifo_cache1_data (s2.fifo_cache1_put / 4) param }
  let s4 := { s3 with fifo_cache1_put := u32 (s3.fifo_cache1_put + 4) }
  if s4.fifo_cache1_put = 64 * 4 then { s4 with fifo_cache1_put := 0 } else s4

/-- geforce_execute_command.  Dispatches one (channel, subchannel, method,
parameter) tuple; methods other than 0, 0x14 and those at least 0x40 are
no-ops.  The C function ends in an unconditional `return true`, reflected
in the fixed second component. -/
def geforce_execute_command (ops : ClassOps A) (s : GState A)
    (chid subc method param : Nat) : GState A × Bool :=
  let dispatched : GState A × Bool :=
    if method = 0x000 then executeBind s chid subc param
    else if method = 0x014 then ({ s with fifo_cache1_ref_cnt := param }, false)
    else if 0x040 ≤ method then
      if ((s.channels chid).schs subc).engine = 0x01 then
        (executeGraph ops s chid subc method param, false)
      else if ((s.channels chid).schs subc).engine = 0x00 then (s, true)
      else (s, false)
    else (s, false)
  let sF := if dispatched.2 then softwarePush dispatched.1 subc method param else dispatched.1
  (sF, true)

/-- Command word fetched by an iteration of the FIFO processing loop:
read through the Address Translator at the channel ring descriptor
(`dma_instance << 4`) and the current get cursor. -/
def fifoWord (s : GState A) : Nat :=
  geforce_dma_read32 s (u32 (s.fifo_cache1_dma_instance * 2 ^ 4)) s.fifo_cache1_dma_get

/-- One iteration of the FIFO processing loop of geforce_fifo_process:
fetch a word at the get cursor through the Address Translator, advance
the cursor by 4, then either feed the word as a parameter of the pending
method run or decode it as a control-flow or method-header word.  The
second component is false exactly when the loop breaks early (a dispatched
command returning false, which rewinds the cursor by 4). -/
def fifoIter (ops : ClassOps A) (chid : Nat) (s : GState A) : GState A × Bool :=
  let ch := s.channels chid
  let word := fifoWord s
  let s := { s with fifo_cache1_dma_get := u32 (s.fifo_cache1_dma_get + 4) }
  if ch.dma_state.mcnt ≠ 0 then
    let ex := geforce_execute_command ops s chid ch.dma_state.subc ch.dma_state.mthd word
    if ex.2 then
      let ch1 := ex.1.channels chid
      let ds := ch1.dma_state
      let mthd1 := if ds.ni then ds.mthd else u32 (ds.mthd + 1)
      let ds1 := { ds with mthd := mthd1, mcnt := ds.mcnt - 1 }
      (setChannel ex.1 chid { ch1 with dma_state := ds1 }, true)
    else
      ({ ex.1 with fifo_cache1_dma_get := u32 (ex.1.fifo_cache1_dma_get + (U32 - 4)) }, false)
  else if Nat.land word 0xe0000003 = 0x20000000 then
    ({ s with fifo_cache1_dma_get := Nat.land word 0x1fffffff }, true)
  else if Nat.land word 3 = 1 then
    ({ s with fifo_cache1_dma_get := Nat.land word 0xfffffffc }, true)
  else if Nat.land word 3 = 2 then
    if ch.subr_active then (s, true)
    else
      let s1 := setChannel s chid { s.channels chid with
        subr_return := s.fifo_cache1_dma_get, subr_active := true }
      ({ s1 with fifo_cache1_dma_get := Nat.land word 0xfffffffc }, true)
  else if word = 0x00020000 then
    if ch.subr_active then
      let s1 := setChannel s chid { s.channels chid with subr_active := false }
      ({ s1 with fifo_cache1_dma_get := ch.subr_return }, true)
    else (s, true)
  else if Nat.land word 0xa0030003 = 0 then
    (setChannel s chid { s.channels chid with dma_state :=
      { mthd := Nat.land (word / 2 ^ 2) 0x7ff, subc := Nat.land (word / 2 ^ 13) 7,
        mcnt := Nat.land (word / 2 ^ 18) 0x7ff,
        ni := Nat.land word 0x40000000 != 0 } }, true)
  else (s, true)

/-- FIFO processing loop: run `fifoIter` until the ring drains (get equals
put) or an iteration breaks early; `none` when the fuel runs out first,
which is how a non-terminating loop is observed in the embedding. -/
def fifoLoop (ops : ClassOps A) (chid : Nat) : Nat → GState A → Option (GState A)
  | 0, _ => none
  | fuel + 1, s =>
    if s.fifo_cache1_dma_get = s.fifo_cache1_dma_put then some s
    else
      let it := fifoIter ops chid s
      if it.2 then fifoLoop ops chid fuel it.1 else some it.1

/-- Context-switch block of geforce_fifo_process, save half: write the
five live pull registers (put cursor, get cursor, reference count,
descriptor instance, semaphore) into the outgoing channel's RAMFC record;
the semaphore offset depends on the generation. -/
def geforce_ctx_save (s : GState A) (oldchid : Nat) : GState A :=
  let sro := if s.card_type < 0x40 then 0x2C else 0x30
  let s1 := geforce_ramfc_write32 s oldchid 0x0 s.fifo_cache1_dma_put
  let s2 := geforce_ramfc_write32 s1 oldchid 0x4 s1.fifo_cache1_dma_get
  let s3 := geforce_ramfc_write32 s2 oldchid 0x8 s2.fifo_cache1_ref_cnt
  let s4 := geforce_ramfc_write32 s3 oldchid 0xC s3.fifo_cache1_dma_instance
  geforce_ramfc_write32 s4 oldchid sro s4.fifo_cache1_semaphore

/-- Context-switch block of geforce_fifo_process, load half: read the five
fields of the incoming channel's record into the live registers and set
the active-channel field. -/
def geforce_ctx_switch (s : GState A) (chid : Nat) : GState A :=
  let oldchid := Nat.land s.fifo_cache1_push1 0x1F
  let sro := if s.card_type < 0x40 then 0x2C else 0x30
  let s5 := geforce_ctx_save s oldchid
  let s6 := { s5 with fifo_cache1_dma_put := geforce_ramfc_read32 s5 chid 0x0 }
  let s7 := { s6 with fifo_cache1_dma_get := geforce_ramfc_read32 s6 chid 0x4 }
  let s8 := { s7 with fifo_cache1_ref_cnt := geforce_ramfc_read32 s7 chid 0x8 }
  let s9 := { s8 with fifo_cache1_dma_instance := geforce_ramfc_read32 s8 chid 0xC }
  let s10 := { s9 with fifo_cache1_semaphore := geforce_ramfc_read32 s9 chid sro }
  { s10 with fifo_cache1_push1 := Nat.lor (Nat.land s10.fifo_cache1_push1 0xFFFFFFE0) chid }

/-- geforce_fifo_process: early-out when the requested channel's ring is
already drained, context switch when the requested channel is not the
active one, then run the processing loop. -/
def geforce_fifo_process (ops : ClassOps A) (fuel : Nat) (s : GState A) (chid : Nat) :
    Option (GState A) :=
  let oldchid := Nat.land s.fifo_cache1_push1 0x1F
  if oldchid = chid then
    if s.fifo_cache1_dma_put = s.fifo_cache1_dma_get then some s
    else fifoLoop ops chid fuel s
  else if geforce_ramfc_read32 s chid 0x0 = geforce_ramfc_read32 s chid 0x4 then some s
  else fifoLoop ops chid fuel (geforce_ctx_switch s chid)

/-- Handler family that leaves accumulator state and memory unchanged,
used to instantiate the abstract class handlers on concrete runs. -/
def trivialOps : ClassOps Unit where
  clip := fun ch m _ _ => (ch.acc, m)
  m2mf := fun ch m _ _ _ => (ch.acc, m)
  rop := fun ch m _ _ => (ch.acc, m)
  patt := fun ch m _ _ => (ch.acc, m)
  gdi := fun ch m _ _ => (ch.acc, m)
  imageblit := fun ch m _ _ => (ch.acc, m)
  ifc := fun ch m _ _ => (ch.acc, m)
  surf2d := fun ch m _ _ => (ch.acc, m)
  d3d := fun ch m _ _ _ => (ch.acc, m)

/-- Byte memory holding the given 32-bit little-endian words at the given
byte addresses, 0 elsewhere. -/
def memOfWords (ws : List (Nat × Nat)) : Nat → Nat :=
  fun a =>
    match ws.find? (fun p => decide (p.1 ≤ a ∧ a < p.1 + 4)) with
    | some p => p.2 / 2 ^ ((a - p.1) * 8) % 256
    | none => 0

/-- Channel with cleared state, as after device reset. -/
def baseChannel : GChannel Unit where
  subr_return := 0
  subr_active := false
  dma_state := { mthd := 0, subc := 0, mcnt := 0, ni := false }
  schs := fun _ => { object := 0, engine := 0, notifier := 0 }
  notify_pending := false
  notify_type := 0
  acc := ()

/-- Concrete pre-NV40 device state over the given VRAM words and pull
cursor, used to exercise the embedding on explicit inputs. -/
def mkState (ws : List (Nat × Nat)) (inst put get : Nat) : GState Unit where
  card_type := 0x20
  memsize := 0x4000000
  ramin_flip := 0
  class_mask := 0xFF
  mem := { vram := memOfWords ws, phys := fun _ => 0 }
  fifo_ramht := 0
  fifo_ramfc := 1
  fifo_intr := 0
  graph_intr := 0
  graph_nsource := 0
  graph_notify := 0
  fifo_cache1_push1 := 0
  fifo_cache1_put := 0
  fifo_cache1_dma_instance := inst
  fifo_cache1_dma_put := put
  fifo_cache1_dma_get := get
  fifo_cache1_ref_cnt := 0
  fifo_cache1_pull0 := 0
  fifo_cache1_semaphore := 0
  fifo_cache1_method := fun _ => 0
  fifo_cache1_data := fun _ => 0
  channels := fun _ => baseChannel
  current_time := 7

/-- Paged translation exactly as the specification words it (§4.1, §8):
`page_table[offset >> 12] & page_mask | (offset & page_offset_mask)`,
the page table being the 32-bit entries inline after the 8-byte
descriptor header, with no use of the descriptor's adjust field. -/
def dma_pt_lookup_spec (s : GState A) (object addr : Nat) : Nat :=
  Nat.lor (Nat.land (geforce_ramin_read32 s (object + 8 + addr / 2 ^ 12 * 4)) 0xFFFFF000)
    (Nat.land addr 0xFFF)

/-- Paged translation as the code actually computes it: the descriptor's
adjust field (word 0 shifted right by 20) is added to the offset modulo
2^32 before the page split. -/
def dma_pt_lookup_amended (s : GState A) (object addr : Nat) : Nat :=
  let adj := u32 (addr + geforce_ramin_read32 s object / 2 ^ 20)
  Nat.lor (Nat.land (geforce_ramin_read32 s (object + 8 + adj / 2 ^ 12 * 4)) 0xFFFFF000)
    (Nat.land adj 0xFFF)

/-- Linear translation with the base field taken from the descriptor's
second 32-bit word (byte offset 4), as the specification's "base_field
from its second word" (§4.1) and "word1 holds a masked base address"
(§6) describe it. -/
def dma_lin_lookup_spec (s : GState A) (object addr : Nat) : Nat :=
  u32 (Nat.land (geforce_ramin_read32 s (object + 4)) 0xFFFFF000 +
    geforce_ramin_read32 s object / 2 ^ 20 + addr)

/-- Linear translation as the code actually computes it: the base field is
the word at byte offset 8 of the descriptor (its third 32-bit word),
masked with 0xFFFFF000. -/
def dma_lin_lookup_amended (s : GState A) (object addr : Nat) : Nat :=
  u32 (Nat.land (geforce_ramin_read32 s (object + 8)) 0xFFFFF000 +
    geforce_ramin_read32 s object / 2 ^ 20 + addr)

/-- Descriptor at 0x100 with nonzero adjust field (word 0 = 0x00100000,
adjust 1, linear flag clear) and page-table entry 0 = 0x5000. -/
def stPT : GState Unit := mkState [(0x100, 0x00100000), (0x108, 0x5000)] 0 0 0

/-- Descriptor at 0x100 with zero adjust, linear flag clear, page-table
entry 0 = 0x5000 (the specification's own worked example). -/
def stPTex : GState Unit := mkState [(0x108, 0x5000)] 0 0 0

/-- Descriptor at 0x100 with word 0 = 0x01002000 (adjust 0x10, linear flag
set), word at +4 = 0x1000, word at +8 = 0x2000. -/
def stLIN : GState Unit := mkState [(0x100, 0x01002000), (0x104, 0x1000), (0x108, 0x2000)] 0 0 0

/-- Ring with a single method header (method 0x40, subchannel 0, run
length 1, increment) followed by one parameter word; every subchannel has
engine 0, so the dispatch takes the software-method path. -/
def st1sw : GState Unit :=
  mkState [(0x100, 0x2000), (0x200, 0x00040100), (0x204, 0xAB)] 0x10 0x208 0x200

/-- Ring whose word at 0x200 is 0x201, a jump targeting its own address
0x200; put is 0x300, so the ring never drains. -/
def stJ : GState Unit :=
  mkState [(0x100, 0x2000), (0x200, 0x201)] 0x10 0x300 0x200

/-- Ring with the method header 0x000C4400 (run length 3, subchannel 2,
method 0x100, increment mode) followed by three parameter words. -/
def st6 : GState Unit :=
  mkState [(0x100, 0x2000), (0x200, 0x000C4400), (0x204, 0x11111111),
    (0x208, 0x22222222), (0x20C, 0x33333333)] 0x10 0x210 0x200

/-- Relation between two device states that differ at most in memory;
used as the frame property of the memory-write primitives. -/
def MemOnly (s t : GState A) : Prop := t = { s with mem := t.mem }

/-- Device state with empty VRAM and an idle channel file. -/
def stEmpty : GState Unit := mkState [] 0 0 0

/-- Handle table holding handle 0xBEEF at its natural slot for channel 3
(byte offset 1664 of a 512-slot table at address 0) with context word
0x03050123: embedded channel id 3, object 0x1230, engine 5. -/
def stC4 : GState Unit := mkState [(1664, 0xBEEF), (1668, 0x03050123)] 0 0 0

/-- The A-to-B-to-A scenario of the context-switch claim: starting from `s`
(whose active channel is `PUSH1 & 0x1F`), switch to channel `B`, let the
five live pull registers be clobbered to arbitrary values `r1..r5` while B
runs, then switch back to the original channel. -/
def ctx_roundtrip_state (s : GState A) (B r1 r2 r3 r4 r5 : Nat) : GState A :=
  let s1 := geforce_ctx_switch s B
  let s2 := { s1 with fifo_cache1_dma_put := r1, fifo_cache1_dma_get := r2,
                      fifo_cache1_ref_cnt := r3, fifo_cache1_dma_instance := r4,
                      fifo_cache1_semaphore := r5 }
  geforce_ctx_switch s2 (Nat.land s.fifo_cache1_push1 0x1F)

def stC5 : GState Unit := mkState [] 0 7 9

/-- Device state whose PFIFO_RAMHT register (written unmasked from guest
MMIO) holds 0x00140000: hash-width field 0x14 gives ramht_bits = 29, so
the uint32 table size `1 << 29 << 3` wraps to zero. -/
def stC8z : GState Unit := { mkState [] 0 0 0 with fifo_ramht := 0x00140000 }

/-- Wrapped-size state holding handle 1 at its natural slot for channel 0
(hash width 29, table at address 0, natural slot byte 8) with context
word 0x00050123 whose embedded channel id is 0. -/
def stC4x : GState Unit :=
  { mkState [(8, 1), (12, 0x00050123)] 0 0 0 with fifo_ramht := 0x00140000 }

/-- C3 counterexample: with a descriptor whose adjust field is 1 and whose
page-table entry 0 is 0x5000, byte offset 0 resolves to 0x5001, while the
specification's formula (which ignores the adjust field) yields 0x5000. -/
theorem pt_lookup_spec_formula_fails_on_nonzero_adjust :
    geforce_dma_pt_lookup stPT 0x100 0 = 0x5001 ∧
    dma_pt_lookup_spec stPT 0x100 0 = 0x5000 := by
  constructor
  · decide
  · decide

/-- C3 amended: for every state, descriptor and byte offset, the paged
translation equals `page_table[adj >> 12] & 0xFFFFF000 | (adj & 0xFFF)`
where `adj = (offset + adjust) mod 2^32` and `adjust` is the descriptor's
first word shifted right by 20; on the specification's worked example
(page-table entry 0 = 0x5000, offset 0x0FA0, adjust 0) the result is
0x5FA0. -/
theorem pt_lookup_amended_formula (A : Type) (s : GState A) (object addr : Nat) :
    geforce_dma_pt_lookup s object addr = dma_pt_lookup_amended s object addr ∧
    geforce_dma_pt_lookup stPTex 0x100 0x0FA0 = 0x5FA0 := by
  constructor
  · rfl
  · decide

/-- C7 counterexample: on a descriptor whose second word (byte offset 4)
is 0x1000 but whose third word (byte offset 8) is 0x2000, with adjust 0x10
and offset 0x34, the code resolves 0x2044 while the specification's
"base from the second word" formula yields 0x1044. -/
theorem lin_lookup_base_not_second_word :
    geforce_dma_lin_lookup stLIN 0x100 0x34 = 0x2044 ∧
    dma_lin_lookup_spec stLIN 0x100 0x34 = 0x1044 := by
  constructor
  · decide
  · decide

/-- C7 amended: for every state, descriptor and byte offset, the linear
translation equals `(base + adjust + offset) mod 2^32` with the base field
taken from the word at byte offset 8 of the descriptor (masked with
0xFFFFF000) and the adjust field from bits 20..31 of its first word; on
the specification's worked example (base 0x2000, adjust 0x10, offset
0x34) the result is 0x2044. -/
theorem lin_lookup_amended_formula (A : Type) (s : GState A) (object addr : Nat) :
    geforce_dma_lin_lookup s object addr = dma_lin_lookup_amended s object addr ∧
    geforce_dma_lin_lookup stLIN 0x100 0x34 = 0x2044 := by
  constructor
  · rfl
  · decide


/-- C1: geforce_execute_command returns true on every input, so the
deferral branch of geforce_fifo_process (rewind the get cursor by 4 and
break) is unreachable; concretely, a ring dispatching one software method
is drained to get = put with the (method, param) pair queued, instead of
exiting early with the cursor rewound. -/
theorem execute_command_always_true_no_rewind :
    (∀ (B : Type) (ops : ClassOps B) (s : GState B) (chid subc method param : Nat),
      (geforce_execute_command ops s chid subc method param).2 = true) ∧
    (geforce_fifo_process trivialOps 3 st1sw 0).map
      (fun f => (f.fifo_cache1_dma_get, f.fifo_cache1_put, f.fifo_cache1_method 0,
        f.fifo_cache1_data 0, f.fifo_intr)) = some (0x208, 4, 0x100, 0xAB, 1) := by
  constructor
  · intro B ops s chid subc method param; rfl
  · decide

/-- C6: fetching the method header 0x000C4400 (run length 3, subchannel
2, method 0x100, non-increment clear) produces exactly three dispatches,
to methods 0x100, 0x101, 0x102 in order on subchannel 2 (visible in the
software-method queue as entries (method << 2) | (subchannel << 13)),
each consuming the next ring word as its parameter; afterwards the
pending run length is 0 and the get cursor has consumed header plus three
parameters. -/
theorem method_header_run_three_dispatches :
    (geforce_fifo_process trivialOps 5 st6 0).map
      (fun f => (f.fifo_cache1_dma_get, (f.channels 0).dma_state.mcnt,
        f.fifo_cache1_put,
        (f.fifo_cache1_method 0, f.fifo_cache1_data 0),
        (f.fifo_cache1_method 1, f.fifo_cache1_data 1),
        (f.fifo_cache1_method 2, f.fifo_cache1_data 2))) =
      some (0x210, 0, 12, (0x4400, 0x11111111), (0x4404, 0x22222222),
        (0x4408, 0x33333333)) := by
  rfl

theorem fifoIter_stJ_fixpoint : fifoIter trivialOps 0 stJ = (stJ, true) := rfl

theorem fifoLoop_stJ_none (n : Nat) : fifoLoop trivialOps 0 n stJ = none := by
  induction n with
  | zero => rfl
  | succ n ih => exact ih


theorem MemOnly.refl (s : GState A) : MemOnly s s := rfl

theorem MemOnly.trans {s t u : GState A} (h1 : MemOnly s t) (h2 : MemOnly t u) :
    MemOnly s u := by
  unfold MemOnly
  calc u = { t with mem := u.mem } := h2
    _ = { s with mem := u.mem } := by rw [h1]

theorem MemOnly.channels {s t : GState A} (h : MemOnly s t) : t.channels = s.channels := by
  rw [h]

theorem MemOnly.dma_get {s t : GState A} (h : MemOnly s t) :
    t.fifo_cache1_dma_get = s.fifo_cache1_dma_get := by rw [h]

theorem MemOnly.put {s t : GState A} (h : MemOnly s t) :
    t.fifo_cache1_put = s.fifo_cache1_put := by rw [h]

theorem MemOnly.dma_put {s t : GState A} (h : MemOnly s t) :
    t.fifo_cache1_dma_put = s.fifo_cache1_dma_put := by rw [h]

theorem MemOnly.ref_cnt {s t : GState A} (h : MemOnly s t) :
    t.fifo_cache1_ref_cnt = s.fifo_cache1_ref_cnt := by rw [h]

theorem MemOnly.dma_instance {s t : GState A} (h : MemOnly s t) :
    t.fifo_cache1_dma_instance = s.fifo_cache1_dma_instance := by rw [h]

theorem MemOnly.semaphore {s t : GState A} (h : MemOnly s t) :
    t.fifo_cache1_semaphore = s.fifo_cache1_semaphore := by rw [h]

theorem MemOnly.push1 {s t : GState A} (h : MemOnly s t) :
    t.fifo_cache1_push1 = s.fifo_cache1_push1 := by rw [h]

theorem MemOnly.card_type {s t : GState A} (h : MemOnly s t) :
    t.card_type = s.card_type := by rw [h]

theorem MemOnly.memsize {s t : GState A} (h : MemOnly s t) : t.memsize = s.memsize := by
  rw [h]

theorem MemOnly.ramin_flip {s t : GState A} (h : MemOnly s t) :
    t.ramin_flip = s.ramin_flip := by rw [h]

theorem MemOnly.fifo_ramfc {s t : GState A} (h : MemOnly s t) :
    t.fifo_ramfc = s.fifo_ramfc := by rw [h]

theorem MemOnly.fifo_intr {s t : GState A} (h : MemOnly s t) :
    t.fifo_intr = s.fifo_intr := by rw [h]

theorem MemOnly.pull0 {s t : GState A} (h : MemOnly s t) :
    t.fifo_cache1_pull0 = s.fifo_cache1_pull0 := by rw [h]

theorem MemOnly.cache1_method {s t : GState A} (h : MemOnly s t) :
    t.fifo_cache1_method = s.fifo_cache1_method := by rw [h]

theorem MemOnly.cache1_data {s t : GState A} (h : MemOnly s t) :
    t.fifo_cache1_data = s.fifo_cache1_data := by rw [h]

theorem memOnly_vram_write32 (s : GState A) (a v : Nat) :
    MemOnly s (geforce_vram_write32 s a v) := by
  unfold MemOnly geforce_vram_write32
  dsimp only
  split <;> rfl

theorem memOnly_vram_write64 (s : GState A) (a v : Nat) :
    MemOnly s (geforce_vram_write64 s a v) := by
  unfold MemOnly geforce_vram_write64
  dsimp only
  split <;> rfl

theorem memOnly_physical_write32 (s : GState A) (a v : Nat) :
    MemOnly s (geforce_physical_write32 s a v) := by
  unfold MemOnly geforce_physical_write32
  rfl

theorem memOnly_physical_write64 (s : GState A) (a v : Nat) :
    MemOnly s (geforce_physical_write64 s a v) := by
  unfold MemOnly geforce_physical_write64
  rfl

theorem memOnly_ramin_write32 (s : GState A) (a v : Nat) :
    MemOnly s (geforce_ramin_write32 s a v) :=
  memOnly_vram_write32 s _ v

theorem memOnly_dma_write32 (s : GState A) (o a v : Nat) :
    MemOnly s (geforce_dma_write32 s o a v) := by
  unfold geforce_dma_write32
  dsimp only
  split
  · exact memOnly_physical_write32 s _ v
  · exact memOnly_vram_write32 s _ v

theorem memOnly_dma_write64 (s : GState A) (o a v : Nat) :
    MemOnly s (geforce_dma_write64 s o a v) := by
  unfold geforce_dma_write64
  dsimp only
  split
  · exact memOnly_physical_write64 s _ v
  · exact memOnly_vram_write64 s _ v

theorem memOnly_bind_patch (s : GState A) (chid subc : Nat) :
    MemOnly s (executeBindPatch s chid subc) := by
  unfold executeBindPatch
  dsimp only
  by_cases h : ((s.channels chid).schs subc).engine = 1
  · rw [if_pos h]
    exact memOnly_ramin_write32 s _ _
  · rw [if_neg h]
    exact MemOnly.refl s

theorem ramin_write32_dma_get (s : GState A) (a v : Nat) :
    (geforce_ramin_write32 s a v).fifo_cache1_dma_get = s.fifo_cache1_dma_get :=
  (memOnly_ramin_write32 s a v).dma_get

theorem ramin_write32_put (s : GState A) (a v : Nat) :
    (geforce_ramin_write32 s a v).fifo_cache1_put = s.fifo_cache1_put :=
  (memOnly_ramin_write32 s a v).put

theorem ramin_write32_channels (s : GState A) (a v : Nat) :
    (geforce_ramin_write32 s a v).channels = s.channels :=
  (memOnly_ramin_write32 s a v).channels

theorem dma_write32_dma_get (s : GState A) (o a v : Nat) :
    (geforce_dma_write32 s o a v).fifo_cache1_dma_get = s.fifo_cache1_dma_get :=
  (memOnly_dma_write32 s o a v).dma_get

theorem dma_write32_put (s : GState A) (o a v : Nat) :
    (geforce_dma_write32 s o a v).fifo_cache1_put = s.fifo_cache1_put :=
  (memOnly_dma_write32 s o a v).put

theorem dma_write64_dma_get (s : GState A) (o a v : Nat) :
    (geforce_dma_write64 s o a v).fifo_cache1_dma_get = s.fifo_cache1_dma_get :=
  (memOnly_dma_write64 s o a v).dma_get

theorem dma_write64_put (s : GState A) (o a v : Nat) :
    (geforce_dma_write64 s o a v).fifo_cache1_put = s.fifo_cache1_put :=
  (memOnly_dma_write64 s o a v).put

theorem bind_patch_dma_get (s : GState A) (chid subc : Nat) :
    (executeBindPatch s chid subc).fifo_cache1_dma_get = s.fifo_cache1_dma_get :=
  (memOnly_bind_patch s chid subc).dma_get

theorem bind_patch_put (s : GState A) (chid subc : Nat) :
    (executeBindPatch s chid subc).fifo_cache1_put = s.fifo_cache1_put :=
  (memOnly_bind_patch s chid subc).put

theorem bind_patch_channels (s : GState A) (chid subc : Nat) :
    (executeBindPatch s chid subc).channels = s.channels :=
  (memOnly_bind_patch s chid subc).channels

theorem executeBind_frame (s : GState A) (chid subc param : Nat) :
    ((executeBind s chid subc param).1).fifo_cache1_dma_get = s.fifo_cache1_dma_get ∧
    ((executeBind s chid subc param).1).fifo_cache1_put = s.fifo_cache1_put := by
  unfold executeBind
  dsimp only
  rcases hL : geforce_ramht_lookup (executeBindPatch s chid subc) param chid with _ | ⟨obj, eng⟩ <;>
    simp only [hL] <;> repeat' split
  all_goals simp [setChannel, setSub, bind_patch_dma_get, bind_patch_put]

theorem executeGraph_frame (ops : ClassOps A) (s : GState A) (chid subc method param : Nat) :
    (executeGraph ops s chid subc method param).fifo_cache1_dma_get = s.fifo_cache1_dma_get ∧
    (executeGraph ops s chid subc method param).fifo_cache1_put = s.fifo_cache1_put := by
  unfold executeGraph
  dsimp only
  repeat' split
  all_goals simp [setChannel, setSub, geforce_update_irq, dma_write32_dma_get, dma_write32_put,
    dma_write64_dma_get, dma_write64_put]

theorem softwarePush_dma_get (s : GState A) (subc method param : Nat) :
    (softwarePush s subc method param).fifo_cache1_dma_get = s.fifo_cache1_dma_get := by
  unfold softwarePush geforce_update_irq
  dsimp only
  split <;> rfl

/-- geforce_execute_command ends in an unconditional `return true`. -/
theorem execute_command_snd_true (ops : ClassOps A) (s : GState A)
    (chid subc method param : Nat) :
    (geforce_execute_command ops s chid subc method param).2 = true := rfl

theorem execute_command_preserves_dma_get (ops : ClassOps A) (s : GState A)
    (chid subc method param : Nat) :
    (geforce_execute_command ops s chid subc method param).1.fifo_cache1_dma_get =
      s.fifo_cache1_dma_get := by
  unfold geforce_execute_command
  dsimp only
  repeat' split
  all_goals
    simp [softwarePush_dma_get, executeGraph_frame, (executeBind_frame s chid subc param).1]

/-- C2 counterexample: the ring whose word at the get cursor is a jump
targeting its own address re-enters exactly the same state after one
iteration, so geforce_fifo_process never drains the ring no matter how
much fuel it is given; 2^32 steps (more than one per possible cursor
value) are not enough. -/
theorem fifo_self_jump_runs_forever :
    geforce_fifo_process trivialOps (2 ^ 32) stJ 0 = none ∧
    fifoIter trivialOps 0 stJ = (stJ, true) ∧
    stJ.fifo_cache1_dma_get ≠ stJ.fifo_cache1_dma_put := by
  refine ⟨?_, rfl, by decide⟩
  have hw : ∀ n, geforce_fifo_process trivialOps n stJ 0 = fifoLoop trivialOps 0 n stJ :=
    fun _ => rfl
  rw [hw]
  exact fifoLoop_stJ_none (2 ^ 32)

/-- C2 amended: the decode loop is not guaranteed to terminate on
arbitrary ring content, because a taken control-flow word (jump, old
jump, call, return) may retarget the get cursor arbitrarily; what does
hold is stepwise progress: every iteration that is a parameter dispatch,
or whose fetched word is not a taken jump, old jump, call or return,
keeps the loop running (never breaks early) and advances the get cursor
by exactly 4 modulo 2^32. -/
theorem fifo_iter_noncontrol_advances_get (ops : ClassOps A) (chid : Nat) (s : GState A)
    (h : (s.channels chid).dma_state.mcnt ≠ 0 ∨
      (Nat.land (fifoWord s) 0xe0000003 ≠ 0x20000000 ∧ Nat.land (fifoWord s) 3 ≠ 1 ∧
        (Nat.land (fifoWord s) 3 = 2 → (s.channels chid).subr_active = true) ∧
        (fifoWord s = 0x00020000 → (s.channels chid).subr_active = false))) :
    (fifoIter ops chid s).2 = true ∧
    (fifoIter ops chid s).1.fifo_cache1_dma_get = u32 (s.fifo_cache1_dma_get + 4) := by
  unfold fifoIter
  dsimp only
  by_cases hm : (s.channels chid).dma_state.mcnt ≠ 0
  · rw [if_pos hm, if_pos (execute_command_snd_true ops _ chid _ _ _)]
    refine ⟨rfl, ?_⟩
    simp only [setChannel]
    rw [execute_command_preserves_dma_get]
  · rw [if_neg hm]
    rcases h with h | ⟨h1, h2, h3, h4⟩
    · exact absurd h hm
    · rw [if_neg h1, if_neg h2]
      by_cases hc : Nat.land (fifoWord s) 3 = 2
      · rw [if_pos hc, if_pos (h3 hc)]
        exact ⟨rfl, rfl⟩
      · rw [if_neg hc]
        by_cases hr : fifoWord s = 0x00020000
        · rw [if_pos hr, if_neg (by rw [h4 hr]; exact Bool.false_ne_true)]
          exact ⟨rfl, rfl⟩
        · rw [if_neg hr]
          by_cases hh : Nat.land (fifoWord s) 0xa0030003 = 0
          · rw [if_pos hh]
            exact ⟨rfl, rfl⟩
          · rw [if_neg hh]
            exact ⟨rfl, rfl⟩

/-- Concrete instantiation of the stepwise-progress theorem at the
method-header state st6. -/
theorem fifo_iter_noncontrol_advances_get_witness :
    ((st6.channels 0).dma_state.mcnt ≠ 0 ∨
      (Nat.land (fifoWord st6) 0xe0000003 ≠ 0x20000000 ∧ Nat.land (fifoWord st6) 3 ≠ 1 ∧
        (Nat.land (fifoWord st6) 3 = 2 → (st6.channels 0).subr_active = true) ∧
        (fifoWord st6 = 0x00020000 → (st6.channels 0).subr_active = false))) ∧
    ((fifoIter trivialOps 0 st6).2 = true ∧
      (fifoIter trivialOps 0 st6).1.fifo_cache1_dma_get = u32 (st6.fifo_cache1_dma_get + 4)) :=
  ⟨by decide, fifo_iter_noncontrol_advances_get trivialOps 0 st6 (by decide)⟩

theorem softwarePush_channels (s : GState A) (subc method param : Nat) :
    (softwarePush s subc method param).channels = s.channels := by
  unfold softwarePush geforce_update_irq
  dsimp only
  split <;> rfl

/-- C9: a bind (method 0) whose handle does not resolve leaves the
subchannel's previously bound object address and engine id exactly as
they were: geforce_ramht_lookup writes its outputs only on success, and
the caller keeps the old binding rather than resetting it or forcing the
software engine id. -/
theorem bind_unresolved_preserves_binding (ops : ClassOps A) (s : GState A)
    (chid subc param : Nat)
    (h : geforce_ramht_lookup (executeBindPatch s chid subc) param chid = none) :
    (((geforce_execute_command ops s chid subc 0x000 param).1.channels chid).schs subc).object =
      ((s.channels chid).schs subc).object ∧
    (((geforce_execute_command ops s chid subc 0x000 param).1.channels chid).schs subc).engine =
      ((s.channels chid).schs subc).engine := by
  have hpc := bind_patch_channels s chid subc
  unfold geforce_execute_command executeBind
  dsimp only
  rw [h]
  dsimp only
  repeat' split
  all_goals try omega
  all_goals simp [setChannel, setSub, fupd, hpc, softwarePush_channels]

theorem softwarePush_put (t : GState A) (subc method param : Nat) :
    (softwarePush t subc method param).fifo_cache1_put =
      if u32 (t.fifo_cache1_put + 4) = 256 then 0 else u32 (t.fifo_cache1_put + 4) := by
  unfold softwarePush geforce_update_irq
  dsimp only
  split <;> rfl

theorem softwarePush_put_bound (t : GState A) (subc method param : Nat)
    (h4 : t.fifo_cache1_put % 4 = 0) (hlt : t.fifo_cache1_put < 256) :
    (softwarePush t subc method param).fifo_cache1_put % 4 = 0 ∧
    (softwarePush t subc method param).fifo_cache1_put < 256 := by
  rw [softwarePush_put]
  have hu : u32 (t.fifo_cache1_put + 4) = t.fifo_cache1_put + 4 := by
    unfold u32 U32
    omega
  rw [hu]
  split <;> omega


set_option maxRecDepth 100000 in
/-- Concrete instantiation of the failed-bind theorem: with an all-zero
handle table, binding handle 5 on channel 1, subchannel 2 resolves
nothing and leaves the subchannel's binding untouched. -/
theorem bind_unresolved_preserves_binding_witness :
    geforce_ramht_lookup (executeBindPatch stEmpty 1 2) 5 1 = none ∧
    ((((geforce_execute_command trivialOps stEmpty 1 2 0x000 5).1.channels 1).schs 2).object =
        ((stEmpty.channels 1).schs 2).object ∧
      (((geforce_execute_command trivialOps stEmpty 1 2 0x000 5).1.channels 1).schs 2).engine =
        ((stEmpty.channels 1).schs 2).engine) :=
  ⟨by decide, bind_unresolved_preserves_binding trivialOps stEmpty 1 2 5 (by decide)⟩

/-- C10: every operation of geforce_execute_command keeps the software
queue's put index a multiple of 4 strictly below GEFORCE_CACHE1_SIZE * 4
= 256, and a software-method deferral (method at least 0x40 on a
subchannel with engine 0) is exactly the queue push: it appends the
(method, param) pair at the current put index, raises FIFO interrupt
source bit 0 and the pull0 flag, and advances put by 4 wrapping to 0 at
256 — with no fullness check against the consumer's get index. -/
theorem software_queue_push_invariant (ops : ClassOps A) (s : GState A)
    (chid subc method param : Nat)
    (hp4 : s.fifo_cache1_put % 4 = 0) (hplt : s.fifo_cache1_put < 256) :
    ((geforce_execute_command ops s chid subc method param).1.fifo_cache1_put % 4 = 0 ∧
      (geforce_execute_command ops s chid subc method param).1.fifo_cache1_put < 256) ∧
    (0x040 ≤ method → ((s.channels chid).schs subc).engine = 0x00 →
      (geforce_execute_command ops s chid subc method param).1 =
        softwarePush s subc method param ∧
      (softwarePush s subc method param).fifo_cache1_method (s.fifo_cache1_put / 4) =
        Nat.lor (u32 (method * 2 ^ 2)) (u32 (subc * 2 ^ 13)) ∧
      (softwarePush s subc method param).fifo_cache1_data (s.fifo_cache1_put / 4) = param ∧
      (softwarePush s subc method param).fifo_intr = Nat.lor s.fifo_intr 0x00000001 ∧
      (softwarePush s subc method param).fifo_cache1_pull0 =
        Nat.lor s.fifo_cache1_pull0 0x00000100 ∧
      (softwarePush s subc method param).fifo_cache1_put =
        (if s.fifo_cache1_put + 4 = 256 then 0 else s.fifo_cache1_put + 4)) := by
  have hu : u32 (s.fifo_cache1_put + 4) = s.fifo_cache1_put + 4 := by
    unfold u32 U32
    omega
  constructor
  · by_cases h0 : method = 0x000
    · unfold geforce_execute_command
      dsimp only
      rw [if_pos h0]
      have hfp : (executeBind s chid subc param).1.fifo_cache1_put = s.fifo_cache1_put :=
        (executeBind_frame s chid subc param).2
      by_cases hb : (executeBind s chid subc param).2 = true
      · rw [if_pos hb]
        exact softwarePush_put_bound _ _ _ _ (by rw [hfp]; exact hp4) (by rw [hfp]; exact hplt)
      · rw [if_neg hb]
        rw [hfp]
        exact ⟨hp4, hplt⟩
    · by_cases h14 : method = 0x014
      · unfold geforce_execute_command
        dsimp only
        rw [if_neg h0, if_pos h14]
        exact ⟨hp4, hplt⟩
      · by_cases h40 : 0x040 ≤ method
        · by_cases hg : ((s.channels chid).schs subc).engine = 0x01
          · unfold geforce_execute_command
            dsimp only
            rw [if_neg h0, if_neg h14, if_pos h40, if_pos hg]
            show (executeGraph ops s chid subc method param).fifo_cache1_put % 4 = 0 ∧
              (executeGraph ops s chid subc method param).fifo_cache1_put < 256
            rw [(executeGraph_frame ops s chid subc method param).2]
            exact ⟨hp4, hplt⟩
          · by_cases he : ((s.channels chid).schs subc).engine = 0x00
            · unfold geforce_execute_command
              dsimp only
              rw [if_neg h0, if_neg h14, if_pos h40, if_neg hg, if_pos he]
              show (softwarePush s subc method param).fifo_cache1_put % 4 = 0 ∧
                (softwarePush s subc method param).fifo_cache1_put < 256
              exact softwarePush_put_bound s subc method param hp4 hplt
            · unfold geforce_execute_command
              dsimp only
              rw [if_neg h0, if_neg h14, if_pos h40, if_neg hg, if_neg he]
              exact ⟨hp4, hplt⟩
        · unfold geforce_execute_command
          dsimp only
          rw [if_neg h0, if_neg h14, if_neg h40]
          exact ⟨hp4, hplt⟩
  · intro h40 he
    have hg : ¬ ((s.channels chid).schs subc).engine = 0x01 := by
      rw [he]
      omega
    have h0 : ¬ method = 0x000 := by omega
    have h14 : ¬ method = 0x014 := by omega
    refine ⟨?_, ?_, ?_, ?_, ?_, ?_⟩
    · unfold geforce_execute_command
      dsimp only
      rw [if_neg h0, if_neg h14, if_pos h40, if_neg hg, if_pos he]
      rfl
    · unfold softwarePush geforce_update_irq
      dsimp only
      split <;> simp [fupd]
    · unfold softwarePush geforce_update_irq
      dsimp only
      split <;> simp [fupd]
    · unfold softwarePush geforce_update_irq
      dsimp only
      split <;> rfl
    · unfold softwarePush geforce_update_irq
      dsimp only
      split <;> rfl
    · rw [softwarePush_put, hu]

/-- Concrete instantiation of the queue-push invariant at method 0x50 on
an engine-0 subchannel of the empty state. -/
theorem software_queue_push_invariant_witness :
    (stEmpty.fifo_cache1_put % 4 = 0 ∧ stEmpty.fifo_cache1_put < 256) ∧
    (((geforce_execute_command trivialOps stEmpty 3 4 0x050 0xCAFE).1.fifo_cache1_put % 4 = 0 ∧
        (geforce_execute_command trivialOps stEmpty 3 4 0x050 0xCAFE).1.fifo_cache1_put < 256) ∧
      (0x040 ≤ 0x050 → ((stEmpty.channels 3).schs 4).engine = 0x00 →
        (geforce_execute_command trivialOps stEmpty 3 4 0x050 0xCAFE).1 =
          softwarePush stEmpty 4 0x050 0xCAFE ∧
        (softwarePush stEmpty 4 0x050 0xCAFE).fifo_cache1_method
            (stEmpty.fifo_cache1_put / 4) =
          Nat.lor (u32 (0x050 * 2 ^ 2)) (u32 (4 * 2 ^ 13)) ∧
        (softwarePush stEmpty 4 0x050 0xCAFE).fifo_cache1_data
            (stEmpty.fifo_cache1_put / 4) = 0xCAFE ∧
        (softwarePush stEmpty 4 0x050 0xCAFE).fifo_intr =
          Nat.lor stEmpty.fifo_intr 0x00000001 ∧
        (softwarePush stEmpty 4 0x050 0xCAFE).fifo_cache1_pull0 =
          Nat.lor stEmpty.fifo_cache1_pull0 0x00000100 ∧
        (softwarePush stEmpty 4 0x050 0xCAFE).fifo_cache1_put =
          (if stEmpty.fifo_cache1_put + 4 = 256 then 0
            else stEmpty.fifo_cache1_put + 4))) :=
  ⟨by decide,
    software_queue_push_invariant trivialOps stEmpty 3 4 0x050 0xCAFE (by decide) (by decide)⟩

theorem ramhtAdvance_mult8 (size it : Nat) (h8 : it % 8 = 0) (_hs : size % 8 = 0) :
    ramhtAdvance size it % 8 = 0 := by
  unfold ramhtAdvance
  split <;> omega

theorem ramhtAdvance_lt (size it : Nat) (hpos : 0 < size) : ramhtAdvance size it < size := by
  unfold ramhtAdvance
  split <;> omega

theorem ramhtAdvance_eq_mod (size it : Nat) (h8 : it % 8 = 0) (hs : size % 8 = 0)
    (hlt : it < size) : ramhtAdvance size it = (it + 8) % size := by
  unfold ramhtAdvance
  split
  · have he : it + 8 = size := by omega
    rw [he, Nat.mod_self]
  · rw [Nat.mod_eq_of_lt (by omega)]

theorem ramhtSlot_eq_mod (size : Nat) (hs : size % 8 = 0) (hpos : 0 < size) :
    ∀ (k it : Nat), it % 8 = 0 → it < size →
      ramhtSlot size it k = (it + 8 * k) % size := by
  intro k
  induction k with
  | zero =>
      intro it h8 hlt
      simp [ramhtSlot, Nat.mod_eq_of_lt hlt]
  | succ k ih =>
      intro it h8 hlt
      rw [ramhtSlot]
      rw [ih (ramhtAdvance size it) (ramhtAdvance_mult8 size it h8 hs)
        (ramhtAdvance_lt size it hpos)]
      rw [ramhtAdvance_eq_mod size it h8 hs hlt, Nat.mod_add_mod]
      have harith : it + 8 + 8 * k = it + 8 * (k + 1) := by ring
      rw [harith]

theorem ramhtSlot_cycle (size it : Nat) (hs : size % 8 = 0) (hpos : 0 < size)
    (h8 : it % 8 = 0) (hlt : it < size) : ramhtSlot size it (size / 8) = it := by
  rw [ramhtSlot_eq_mod size hs hpos (size / 8) it h8 hlt]
  have h : 8 * (size / 8) = size := by omega
  rw [h, Nat.add_mod_right, Nat.mod_eq_of_lt hlt]

theorem ramhtProbe_none_iff (s : GState A) (handle chid addr size : Nat) :
    ∀ (fuel it : Nat),
      (ramhtProbe s handle chid addr size fuel it = none ↔
        ∀ i < fuel, ¬ ramhtMatchAt s handle chid addr (ramhtSlot size it i)) := by
  intro fuel
  induction fuel with
  | zero =>
      intro it
      simp [ramhtProbe]
  | succ fuel ih =>
      intro it
      rw [ramhtProbe]
      by_cases hc : ramhtMatchAt s handle chid addr it
      · rw [if_pos hc]
        constructor
        · intro h
          exact (Option.some_ne_none _ h).elim
        · intro h
          exact absurd hc (h 0 (Nat.succ_pos fuel))
      · rw [if_neg hc]
        rw [ih (ramhtAdvance size it)]
        constructor
        · intro h i hi
          cases i with
          | zero => exact hc
          | succ i => exact h i (by omega)
        · intro h i hi
          exact h (i + 1) (by omega)

theorem ramhtProbe_some (s : GState A) (handle chid addr size : Nat) :
    ∀ (fuel it : Nat) (r : Nat × Nat),
      ramhtProbe s handle chid addr size fuel it = some r →
      ∃ i, i < fuel ∧ ramhtMatchAt s handle chid addr (ramhtSlot size it i) ∧
        r = ramhtResultAt s addr (ramhtSlot size it i) ∧
        ∀ j < i, ¬ ramhtMatchAt s handle chid addr (ramhtSlot size it j) := by
  intro fuel
  induction fuel with
  | zero =>
      intro it r h
      simp [ramhtProbe] at h
  | succ fuel ih =>
      intro it r h
      rw [ramhtProbe] at h
      by_cases hc : ramhtMatchAt s handle chid addr it
      · rw [if_pos hc] at h
        refine ⟨0, Nat.succ_pos fuel, hc, ?_, ?_⟩
        · injection h with h1
          exact h1.symm
        · intro j hj
          omega
      · rw [if_neg hc] at h
        obtain ⟨i, hi, hm, hr, hfirst⟩ := ih (ramhtAdvance size it) r h
        refine ⟨i + 1, by omega, hm, hr, ?_⟩
        intro j hj
        cases j with
        | zero => exact hc
        | succ j => exact hfirst j (by omega)

theorem ramhtHashFoldAux_lt (bits : Nat) :
    ∀ (fuel x : Nat), ramhtHashFoldAux bits fuel x < 2 ^ bits := by
  intro fuel
  induction fuel with
  | zero =>
      intro x
      simp [ramhtHashFoldAux]
  | succ fuel ih =>
      intro x
      rw [ramhtHashFoldAux]
      split
      · exact Nat.two_pow_pos bits
      · exact Nat.xor_lt_two_pow
          (Nat.and_lt_two_pow x (by have := Nat.two_pow_pos bits; omega)) (ih _)


theorem u32_lt_mod (n : Nat) : u32 n < 4294967296 := by
  unfold u32 U32
  omega

theorem u32_eq_of_lt {n : Nat} (h : n < 4294967296) : u32 n = n := by
  unfold u32 U32
  omega

theorem u32_le_self (n : Nat) : u32 n ≤ n := Nat.mod_le _ _

theorem u32_mod8 (n : Nat) : u32 n % 8 = n % 8 := by
  unfold u32 U32
  omega

theorem ramhtSizeOf_mod8 (s : GState A) : ramhtSizeOf s % 8 = 0 := by
  unfold ramhtSizeOf
  rw [u32_mod8]
  exact Nat.mul_mod_left _ 8

theorem ramhtSizeOf_eq (s : GState A) (hbits : ramhtBitsOf s ≤ 28) :
    ramhtSizeOf s = 2 ^ ramhtBitsOf s * 8 := by
  have hp : 2 ^ ramhtBitsOf s ≤ 2 ^ 28 := Nat.pow_le_pow_right (by norm_num) hbits
  have h28 : (2 : Nat) ^ 28 = 268435456 := by norm_num
  unfold ramhtSizeOf
  rw [u32_eq_of_lt (show 2 ^ ramhtBitsOf s < 4294967296 by omega), u32_eq_of_lt (by omega)]

theorem ramhtSizeOf_pos (s : GState A) (hbits : ramhtBitsOf s ≤ 28) : 0 < ramhtSizeOf s := by
  rw [ramhtSizeOf_eq s hbits]
  have := Nat.two_pow_pos (ramhtBitsOf s)
  omega

theorem ramhtSizeOf_div8 (s : GState A) (hbits : ramhtBitsOf s ≤ 28) :
    ramhtSizeOf s / 8 = 2 ^ ramhtBitsOf s := by
  rw [ramhtSizeOf_eq s hbits]
  omega

theorem ramhtSlot_size_zero (it : Nat) : ∀ n, ramhtSlot 0 it (n + 1) = 0 := by
  intro n
  induction n generalizing it with
  | zero =>
      show ramhtSlot 0 (ramhtAdvance 0 it) 0 = 0
      unfold ramhtAdvance
      rw [if_pos (by omega)]
      rfl
  | succ n ih =>
      show ramhtSlot 0 (ramhtAdvance 0 it) (n + 1) = 0
      exact ih _
theorem ramhtHashOf_bound (s : GState A) (handle chid : Nat) (hbits : ramhtBitsOf s ≤ 28) :
    ramhtHashOf s handle chid % 8 = 0 ∧ ramhtHashOf s handle chid < ramhtSizeOf s := by
  have hfold : ramhtHashFold (ramhtBitsOf s) handle < 2 ^ ramhtBitsOf s :=
    ramhtHashFoldAux_lt _ _ _
  have hbits4 : 4 ≤ ramhtBitsOf s := by
    unfold ramhtBitsOf
    omega
  have hpow : (16 : Nat) * 2 ^ (ramhtBitsOf s - 4) = 2 ^ ramhtBitsOf s := by
    rw [show (16 : Nat) = 2 ^ 4 from rfl, ← pow_add]
    congr 1
    omega
  have hc : u32 (Nat.land chid 0xF * 2 ^ (ramhtBitsOf s - 4)) < 2 ^ ramhtBitsOf s := by
    have h1 : Nat.land chid 0xF ≤ 0xF := Nat.and_le_right
    have hp : 0 < 2 ^ (ramhtBitsOf s - 4) := Nat.two_pow_pos _
    have h2 : Nat.land chid 0xF * 2 ^ (ramhtBitsOf s - 4) < 16 * 2 ^ (ramhtBitsOf s - 4) := by
      calc Nat.land chid 0xF * 2 ^ (ramhtBitsOf s - 4)
          ≤ 15 * 2 ^ (ramhtBitsOf s - 4) := Nat.mul_le_mul_right _ h1
        _ < 16 * 2 ^ (ramhtBitsOf s - 4) := by omega
    calc u32 (Nat.land chid 0xF * 2 ^ (ramhtBitsOf s - 4))
        ≤ Nat.land chid 0xF * 2 ^ (ramhtBitsOf s - 4) := Nat.mod_le _ _
      _ < 2 ^ ramhtBitsOf s := by omega
  have hx : Nat.xor (ramhtHashFold (ramhtBitsOf s) handle)
      (u32 (Nat.land chid 0xF * 2 ^ (ramhtBitsOf s - 4))) < 2 ^ ramhtBitsOf s :=
    Nat.xor_lt_two_pow hfold hc
  constructor
  · unfold ramhtHashOf
    rw [u32_mod8]
    exact Nat.mul_mod_left _ 8
  · rw [ramhtSizeOf_eq s hbits]
    unfold ramhtHashOf
    have hp : 2 ^ ramhtBitsOf s ≤ 2 ^ 28 := Nat.pow_le_pow_right (by norm_num) hbits
    have h28 : (2 : Nat) ^ 28 = 268435456 := by norm_num
    have hlt : Nat.xor (ramhtHashFold (ramhtBitsOf s) handle)
        (u32 (Nat.land chid 0xF * 2 ^ (ramhtBitsOf s - 4))) * 8 < 4294967296 := by
      have := (Nat.mul_lt_mul_right (by norm_num : (0 : Nat) < 8)).mpr hx
      omega
    rw [u32_eq_of_lt hlt]
    exact (Nat.mul_lt_mul_right (by norm_num : (0 : Nat) < 8)).mpr hx

/-- C8: whenever the configured hash width keeps the uint32 table size
`1 << bits << 3` from wrapping to zero (bits at most 28), the RAMHT
linear probe advances 8 bytes at a time wrapping at the table size and
returns to its starting slot after exactly size/8 advances, which is the
full-traversal bound of the do-while loop; lookup fails exactly when no
slot of that single traversal matches (never a false failure), and a
successful lookup returns the decode of the first matching slot in probe
order (never a false match).  For larger widths the size wraps to zero
and the loop never terminates (see the wrapped-size counterexample). -/
theorem ramht_probe_characterization (s : GState A) (handle chid : Nat)
    (hbits : ramhtBitsOf s ≤ 28) :
    ramhtSlot (ramhtSizeOf s) (ramhtHashOf s handle chid) (ramhtSizeOf s / 8) =
      ramhtHashOf s handle chid ∧
    (geforce_ramht_lookup s handle chid = none ↔
      ∀ i < 2 ^ ramhtBitsOf s, ¬ ramhtMatchAt s handle chid (ramhtAddrOf s)
        (ramhtSlot (ramhtSizeOf s) (ramhtHashOf s handle chid) i)) ∧
    (∀ r, geforce_ramht_lookup s handle chid = some r →
      ∃ i, i < 2 ^ ramhtBitsOf s ∧
        ramhtMatchAt s handle chid (ramhtAddrOf s)
          (ramhtSlot (ramhtSizeOf s) (ramhtHashOf s handle chid) i) ∧
        r = ramhtResultAt s (ramhtAddrOf s)
          (ramhtSlot (ramhtSizeOf s) (ramhtHashOf s handle chid) i) ∧
        ∀ j < i, ¬ ramhtMatchAt s handle chid (ramhtAddrOf s)
          (ramhtSlot (ramhtSizeOf s) (ramhtHashOf s handle chid) j)) := by
  obtain ⟨hm8, hlt⟩ := ramhtHashOf_bound s handle chid hbits
  refine ⟨ramhtSlot_cycle _ _ (ramhtSizeOf_mod8 s) (ramhtSizeOf_pos s hbits) hm8 hlt, ?_, ?_⟩
  · exact ramhtProbe_none_iff s handle chid (ramhtAddrOf s) (ramhtSizeOf s)
      (2 ^ ramhtBitsOf s) (ramhtHashOf s handle chid)
  · intro r h
    exact ramhtProbe_some s handle chid (ramhtAddrOf s) (ramhtSizeOf s)
      (2 ^ ramhtBitsOf s) (ramhtHashOf s handle chid) r h

/-- Concrete instantiation of the probe characterization at a reset state
(hash width 9, table size 4096): the probe cycle closes after 512
advances and the lookup-failure and first-match characterizations hold. -/
theorem ramht_probe_characterization_witness :
    ramhtBitsOf stEmpty ≤ 28 ∧
    (ramhtSlot (ramhtSizeOf stEmpty) (ramhtHashOf stEmpty 0xCAFE 2) (ramhtSizeOf stEmpty / 8) =
        ramhtHashOf stEmpty 0xCAFE 2 ∧
      (geforce_ramht_lookup stEmpty 0xCAFE 2 = none ↔
        ∀ i < 2 ^ ramhtBitsOf stEmpty, ¬ ramhtMatchAt stEmpty 0xCAFE 2 (ramhtAddrOf stEmpty)
          (ramhtSlot (ramhtSizeOf stEmpty) (ramhtHashOf stEmpty 0xCAFE 2) i)) ∧
      (∀ r, geforce_ramht_lookup stEmpty 0xCAFE 2 = some r →
        ∃ i, i < 2 ^ ramhtBitsOf stEmpty ∧
          ramhtMatchAt stEmpty 0xCAFE 2 (ramhtAddrOf stEmpty)
            (ramhtSlot (ramhtSizeOf stEmpty) (ramhtHashOf stEmpty 0xCAFE 2) i) ∧
          r = ramhtResultAt stEmpty (ramhtAddrOf stEmpty)
            (ramhtSlot (ramhtSizeOf stEmpty) (ramhtHashOf stEmpty 0xCAFE 2) i) ∧
          ∀ j < i, ¬ ramhtMatchAt stEmpty 0xCAFE 2 (ramhtAddrOf stEmpty)
            (ramhtSlot (ramhtSizeOf stEmpty) (ramhtHashOf stEmpty 0xCAFE 2) j))) :=
  ⟨by decide, ramht_probe_characterization stEmpty 0xCAFE 2 (by decide)⟩

/-- C8 counterexample to the termination half of the claim: with the
guest-settable PFIFO_RAMHT width field at 0x14 (hash width 29) the uint32
table size `1 << 29 << 3` wraps to zero, so the advance resets the probe
cursor to slot 0 on every step; the cursor never returns to its nonzero
starting slot and no visited slot matches, hence the do-while loop of
geforce_ramht_lookup exits neither by match nor by completing a
traversal — it never terminates instead of failing after one pass. -/
theorem ramht_probe_wrapped_size_hangs :
    ramhtSizeOf stC8z = 0 ∧
    ramhtHashOf stC8z 1 7 ≠ 0 ∧
    (∀ n, ramhtSlot (ramhtSizeOf stC8z) (ramhtHashOf stC8z 1 7) (n + 1) ≠
      ramhtHashOf stC8z 1 7) ∧
    (∀ n, ¬ ramhtMatchAt stC8z 1 7 (ramhtAddrOf stC8z)
      (ramhtSlot (ramhtSizeOf stC8z) (ramhtHashOf stC8z 1 7) n)) := by
  have hsz : ramhtSizeOf stC8z = 0 := by decide
  refine ⟨hsz, by decide, ?_, ?_⟩
  · intro n
    rw [hsz, ramhtSlot_size_zero]
    decide
  · intro n
    cases n with
    | zero => decide
    | succ n =>
        rw [hsz, ramhtSlot_size_zero]
        decide

/-- C4: whenever the configured hash width keeps the uint32 table size
from wrapping to zero (bits at most 28), a non-zero handle stored at its
natural hash slot whose context word carries the requesting channel id
resolves to the object address and engine id decoded from that context
word by the generation-dependent layout; a different channel id probing a
table whose only slot holding H is that natural slot finds no match (the
natural slot fails the embedded channel-id comparison) and the lookup
reports failure.  For larger widths the failing probe never terminates
instead of reporting failure (see the wrapped-size counterexample). -/
theorem ramht_natural_slot_lookup (s : GState A) (H chid chid2 ctx : Nat)
    (hbits : ramhtBitsOf s ≤ 28)
    (_hH : H ≠ 0)
    (h1 : geforce_ramin_read32 s (u32 (ramhtAddrOf s + ramhtHashOf s H chid)) = H)
    (h2 : geforce_ramin_read32 s (u32 (ramhtAddrOf s + ramhtHashOf s H chid + 4)) = ctx)
    (hctx : ramhtCtxChid s ctx = chid)
    (hother : ∀ j, j < ramhtSizeOf s / 8 → j * 8 ≠ ramhtHashOf s H chid →
      geforce_ramin_read32 s (u32 (ramhtAddrOf s + j * 8)) ≠ H)
    (hne : chid2 ≠ chid) :
    geforce_ramht_lookup s H chid = some (ramhtObject s ctx, ramhtEngine s ctx) ∧
    geforce_ramht_lookup s H chid2 = none := by
  constructor
  · unfold geforce_ramht_lookup
    obtain ⟨f, hf⟩ : ∃ f, 2 ^ ramhtBitsOf s = f + 1 :=
      ⟨2 ^ ramhtBitsOf s - 1, by have := Nat.two_pow_pos (ramhtBitsOf s); omega⟩
    rw [hf, ramhtProbe]
    rw [if_pos (show ramhtMatchAt s H chid (ramhtAddrOf s) (ramhtHashOf s H chid) from
      ⟨h1, by rw [h2]; exact hctx⟩)]
    unfold ramhtResultAt
    rw [h2]
  · unfold geforce_ramht_lookup
    rw [ramhtProbe_none_iff]
    intro i hi
    obtain ⟨hm8, hlt⟩ := ramhtHashOf_bound s H chid2 hbits
    have hslot := ramhtSlot_eq_mod (ramhtSizeOf s) (ramhtSizeOf_mod8 s) (ramhtSizeOf_pos s hbits)
      i (ramhtHashOf s H chid2) hm8 hlt
    have hdvd : (8 : Nat) ∣ ramhtSizeOf s := Nat.dvd_of_mod_eq_zero (ramhtSizeOf_mod8 s)
    have hsl8 : ramhtSlot (ramhtSizeOf s) (ramhtHashOf s H chid2) i % 8 = 0 := by
      rw [hslot, Nat.mod_mod_of_dvd _ hdvd]
      omega
    have hsllt : ramhtSlot (ramhtSizeOf s) (ramhtHashOf s H chid2) i < ramhtSizeOf s := by
      rw [hslot]
      exact Nat.mod_lt _ (ramhtSizeOf_pos s hbits)
    by_cases he : ramhtSlot (ramhtSizeOf s) (ramhtHashOf s H chid2) i = ramhtHashOf s H chid
    · intro hmatch
      obtain ⟨hh, hcc⟩ := hmatch
      rw [he] at hcc
      rw [h2] at hcc
      omega
    · intro hmatch
      have hj : ramhtSlot (ramhtSizeOf s) (ramhtHashOf s H chid2) i / 8 * 8 =
          ramhtSlot (ramhtSizeOf s) (ramhtHashOf s H chid2) i := by omega
      refine hother (ramhtSlot (ramhtSizeOf s) (ramhtHashOf s H chid2) i / 8) ?_ ?_ ?_
      · omega
      · rw [hj]
        exact he
      · rw [hj]
        exact hmatch.1


set_option maxRecDepth 200000 in
/-- Concrete instantiation of the natural-slot lookup theorem: channel 3
resolves (0x1230, 5); channel 7 probing the same table fails. -/
theorem ramht_natural_slot_lookup_witness :
    (ramhtBitsOf stC4 ≤ 28 ∧
      (0xBEEF : Nat) ≠ 0 ∧
      geforce_ramin_read32 stC4 (u32 (ramhtAddrOf stC4 + ramhtHashOf stC4 0xBEEF 3)) = 0xBEEF ∧
      geforce_ramin_read32 stC4
        (u32 (ramhtAddrOf stC4 + ramhtHashOf stC4 0xBEEF 3 + 4)) = 0x03050123 ∧
      ramhtCtxChid stC4 0x03050123 = 3 ∧
      (7 : Nat) ≠ 3) ∧
    geforce_ramht_lookup stC4 0xBEEF 3 =
      some (ramhtObject stC4 0x03050123, ramhtEngine stC4 0x03050123) ∧
    geforce_ramht_lookup stC4 0xBEEF 7 = none :=
  ⟨⟨by decide, by decide, by decide, by decide, by decide, by decide⟩,
    ramht_natural_slot_lookup stC4 0xBEEF 3 7 0x03050123 (by decide) (by decide) (by decide)
      (by decide)
      (by decide)
      (by decide)
      (by decide)⟩

/-- C4 counterexample to the unconditional claim: with the guest-settable
PFIFO_RAMHT width field at 0x14 (hash width 29) the uint32 table size
wraps to zero.  Handle 1 sits at its natural slot for channel 0 with a
context word embedding channel id 0, and channel 7 probes the table — the
original claim's scenario — but the probe's advance resets the cursor to
slot 0 on every step, the cursor never returns to its nonzero starting
slot, and no slot it visits matches, so the do-while loop of
geforce_ramht_lookup exits neither by match nor by completing its
traversal: the lookup hangs instead of reporting failure. -/
theorem ramht_natural_slot_wrapped_size_no_failure :
    (geforce_ramin_read32 stC4x (u32 (ramhtAddrOf stC4x + ramhtHashOf stC4x 1 0)) = 1 ∧
      ramhtCtxChid stC4x (geforce_ramin_read32 stC4x
        (u32 (ramhtAddrOf stC4x + ramhtHashOf stC4x 1 0 + 4))) = 0 ∧
      (7 : Nat) ≠ 0) ∧
    ramhtSizeOf stC4x = 0 ∧
    ramhtHashOf stC4x 1 7 ≠ 0 ∧
    (∀ n, ramhtSlot (ramhtSizeOf stC4x) (ramhtHashOf stC4x 1 7) (n + 1) ≠
      ramhtHashOf stC4x 1 7) ∧
    (∀ n, ¬ ramhtMatchAt stC4x 1 7 (ramhtAddrOf stC4x)
      (ramhtSlot (ramhtSizeOf stC4x) (ramhtHashOf stC4x 1 7) n)) := by
  have hsz : ramhtSizeOf stC4x = 0 := by decide
  refine ⟨⟨by decide, by decide, by decide⟩, hsz, by decide, ?_, ?_⟩
  · intro n
    rw [hsz, ramhtSlot_size_zero]
    decide
  · intro n
    cases n with
    | zero => decide
    | succ n =>
        rw [hsz, ramhtSlot_size_zero]
        decide


theorem u32_idem (n : Nat) : u32 (u32 n) = u32 n := by
  unfold u32 U32
  omega

theorem u32_lt_U32 (n : Nat) : u32 n < 4294967296 := by
  unfold u32 U32
  omega

theorem storeLE4_apply (m : Nat → Nat) (a v x : Nat) :
    storeLE m a v 4 x =
      if x = a + 3 then v / 256 / 256 / 256 % 256
      else if x = a + 2 then v / 256 / 256 % 256
      else if x = a + 1 then v / 256 % 256
      else if x = a then v % 256
      else m x := by
  simp only [storeLE, fupd]

theorem loadLE_storeLE_same (m : Nat → Nat) (a v : Nat) (hv : v < 4294967296) :
    loadLE (storeLE m a v 4) a 4 = v := by
  have b0 : storeLE m a v 4 a = v % 256 := by
    rw [storeLE4_apply, if_neg (by omega), if_neg (by omega), if_neg (by omega), if_pos rfl]
  have b1 : storeLE m a v 4 (a + 1) = v / 256 % 256 := by
    rw [storeLE4_apply, if_neg (by omega), if_neg (by omega), if_pos rfl]
  have b2 : storeLE m a v 4 (a + 1 + 1) = v / 256 / 256 % 256 := by
    rw [storeLE4_apply, if_neg (by omega), if_pos (by omega)]
  have b3 : storeLE m a v 4 (a + 1 + 1 + 1) = v / 256 / 256 / 256 % 256 := by
    rw [storeLE4_apply, if_pos (by omega)]
  simp only [loadLE, b0, b1, b2, b3]
  omega

theorem loadLE_storeLE_disjoint (m : Nat → Nat) (a b v : Nat)
    (hd : a + 3 < b ∨ b + 3 < a) :
    loadLE (storeLE m b v 4) a 4 = loadLE m a 4 := by
  have c0 : storeLE m b v 4 a = m a := by
    rw [storeLE4_apply, if_neg (by omega), if_neg (by omega), if_neg (by omega),
      if_neg (by omega)]
  have c1 : storeLE m b v 4 (a + 1) = m (a + 1) := by
    rw [storeLE4_apply, if_neg (by omega), if_neg (by omega), if_neg (by omega),
      if_neg (by omega)]
  have c2 : storeLE m b v 4 (a + 1 + 1) = m (a + 1 + 1) := by
    rw [storeLE4_apply, if_neg (by omega), if_neg (by omega), if_neg (by omega),
      if_neg (by omega)]
  have c3 : storeLE m b v 4 (a + 1 + 1 + 1) = m (a + 1 + 1 + 1) := by
    rw [storeLE4_apply, if_neg (by omega), if_neg (by omega), if_neg (by omega),
      if_neg (by omega)]
  simp only [loadLE, c0, c1, c2, c3]

theorem xor_mod_two_pow (a f n : Nat) :
    Nat.xor a f % 2 ^ n = Nat.xor (a % 2 ^ n) (f % 2 ^ n) := by
  show (a ^^^ f) % 2 ^ n = (a % 2 ^ n) ^^^ (f % 2 ^ n)
  apply Nat.eq_of_testBit_eq
  intro i
  rw [Nat.testBit_mod_two_pow, Nat.testBit_xor, Nat.testBit_xor,
    Nat.testBit_mod_two_pow, Nat.testBit_mod_two_pow]
  by_cases hi : i < n <;> simp [hi]

theorem xor_dist4 (a b f : Nat) (ha : a % 4 = 0) (hb : b % 4 = 0) (hne : a ≠ b) :
    Nat.xor a f + 3 < Nat.xor b f ∨ Nat.xor b f + 3 < Nat.xor a f := by
  have hm := xor_mod_two_pow a f 2
  have hm2 := xor_mod_two_pow b f 2
  norm_num at hm hm2
  have hmoda : Nat.xor a f % 4 = f % 4 := by
    rw [hm, ha]
    exact Nat.zero_xor _
  have hmodb : Nat.xor b f % 4 = f % 4 := by
    rw [hm2, hb]
    exact Nat.zero_xor _
  have hinj : Nat.xor a f ≠ Nat.xor b f := by
    intro h
    apply hne
    have h2 : (a ^^^ f) ^^^ f = (b ^^^ f) ^^^ f := congrArg (fun z => Nat.xor z f) h
    simpa [Nat.xor_assoc] using h2
  omega

theorem u32_mod4 (n : Nat) : u32 n % 4 = n % 4 := by
  unfold u32 U32
  omega

theorem vram_rw_same (s : GState A) (a v : Nat)
    (hb : a + 3 < s.memsize) (hU : a + 3 < 4294967296) :
    geforce_vram_read32 (geforce_vram_write32 s a v) a = u32 v := by
  unfold geforce_vram_read32 geforce_vram_write32
  dsimp only
  rw [u32_eq_of_lt (by omega : a < 4294967296), u32_eq_of_lt hU, if_pos hb, if_pos hb]
  exact loadLE_storeLE_same _ _ _ (u32_lt_U32 v)

theorem vram_rw_disjoint (s : GState A) (a b v : Nat)
    (hd : a + 3 < b ∨ b + 3 < a)
    (haU : a + 3 < 4294967296) (hbU : b + 3 < 4294967296) :
    geforce_vram_read32 (geforce_vram_write32 s b v) a = geforce_vram_read32 s a := by
  unfold geforce_vram_read32 geforce_vram_write32
  dsimp only
  rw [u32_eq_of_lt (by omega : a < 4294967296), u32_eq_of_lt (by omega : b < 4294967296),
    u32_eq_of_lt haU, u32_eq_of_lt hbU]
  by_cases hw : b + 3 < s.memsize
  · rw [if_pos hw]
    by_cases hr : a + 3 < s.memsize
    · rw [if_pos hr, if_pos hr]
      exact loadLE_storeLE_disjoint _ _ _ _ hd
    · rw [if_neg hr, if_neg hr]
  · rw [if_neg hw]

theorem ramin_rw_same (s : GState A) (a v : Nat)
    (ha : a < 4294967296)
    (hb : Nat.xor a s.ramin_flip + 3 < s.memsize)
    (hU : Nat.xor a s.ramin_flip + 3 < 4294967296) :
    geforce_ramin_read32 (geforce_ramin_write32 s a v) a = u32 v := by
  unfold geforce_ramin_read32 geforce_ramin_write32
  rw [u32_eq_of_lt ha]
  rw [(memOnly_vram_write32 s _ v).ramin_flip]
  exact vram_rw_same s _ v hb hU

theorem ramin_rw_disjoint (s : GState A) (a b v : Nat)
    (ha : a < 4294967296) (hbb : b < 4294967296)
    (hd : Nat.xor a s.ramin_flip + 3 < Nat.xor b s.ramin_flip ∨
      Nat.xor b s.ramin_flip + 3 < Nat.xor a s.ramin_flip)
    (haU : Nat.xor a s.ramin_flip + 3 < 4294967296)
    (hbU : Nat.xor b s.ramin_flip + 3 < 4294967296) :
    geforce_ramin_read32 (geforce_ramin_write32 s b v) a = geforce_ramin_read32 s a := by
  unfold geforce_ramin_read32 geforce_ramin_write32
  rw [u32_eq_of_lt ha, u32_eq_of_lt hbb]
  rw [(memOnly_vram_write32 s _ v).ramin_flip]
  exact vram_rw_disjoint s _ _ v hd haU hbU

theorem memOnly_ramfc_write32 (s : GState A) (c off v : Nat) :
    MemOnly s (geforce_ramfc_write32 s c off v) :=
  memOnly_ramin_write32 s _ v

theorem ramfc_address_memOnly {s t : GState A} (h : MemOnly s t) (c off : Nat) :
    geforce_ramfc_address t c off = geforce_ramfc_address s c off := by
  unfold geforce_ramfc_address
  rw [h.card_type, h.fifo_ramfc]

theorem ramfc_address_lt (s : GState A) (c off : Nat) :
    geforce_ramfc_address s c off < 4294967296 := by
  unfold geforce_ramfc_address
  exact u32_lt_U32 _

theorem ramfc_address_mod4 (s : GState A) (c off : Nat) (hoff : off % 4 = 0) :
    geforce_ramfc_address s c off % 4 = 0 := by
  unfold geforce_ramfc_address
  dsimp only
  rw [u32_mod4]
  split <;> omega

theorem ramfc_address_ne (s : GState A) (c1 o1 c2 o2 : Nat)
    (hc1 : c1 < 32) (hc2 : c2 < 32) (ho1 : o1 ≤ 0x30) (ho2 : o2 ≤ 0x30)
    (hne : c1 ≠ c2 ∨ o1 ≠ o2) :
    geforce_ramfc_address s c1 o1 ≠ geforce_ramfc_address s c2 o2 := by
  unfold geforce_ramfc_address
  dsimp only
  have hland : Nat.land s.fifo_ramfc 0xFFF ≤ 0xFFF := Nat.and_le_right
  split
  · rw [u32_eq_of_lt (by omega), u32_eq_of_lt (by omega)]
    omega
  · rw [u32_eq_of_lt (by omega), u32_eq_of_lt (by omega)]
    omega

theorem ramfc_rw_same (t : GState A) (c off v : Nat)
    (hbound : Nat.xor (geforce_ramfc_address t c off) t.ramin_flip + 3 < t.memsize)
    (hmem : t.memsize ≤ 4294967296) :
    geforce_ramfc_read32 (geforce_ramfc_write32 t c off v) c off = u32 v := by
  unfold geforce_ramfc_read32 geforce_ramfc_write32
  rw [ramfc_address_memOnly (memOnly_ramin_write32 t _ v) c off]
  exact ramin_rw_same t _ v (ramfc_address_lt t c off) hbound (by omega)

theorem ramfc_rw_disjoint (t : GState A) (c off c2 off2 v : Nat)
    (hc : c < 32) (hc2 : c2 < 32) (ho : off ≤ 0x30) (ho2 : off2 ≤ 0x30)
    (ho4 : off % 4 = 0) (ho24 : off2 % 4 = 0)
    (hne : c ≠ c2 ∨ off ≠ off2)
    (hU1 : Nat.xor (geforce_ramfc_address t c off) t.ramin_flip + 3 < 4294967296)
    (hU2 : Nat.xor (geforce_ramfc_address t c2 off2) t.ramin_flip + 3 < 4294967296) :
    geforce_ramfc_read32 (geforce_ramfc_write32 t c off v) c2 off2 =
      geforce_ramfc_read32 t c2 off2 := by
  unfold geforce_ramfc_read32 geforce_ramfc_write32
  rw [ramfc_address_memOnly (memOnly_ramin_write32 t _ v) c2 off2]
  refine ramin_rw_disjoint t _ _ v (ramfc_address_lt t c2 off2) (ramfc_address_lt t c off)
    ?_ hU2 hU1
  exact xor_dist4 _ _ _ (ramfc_address_mod4 t c2 off2 ho24) (ramfc_address_mod4 t c off ho4)
    (ramfc_address_ne t c2 off2 c off hc2 hc ho2 ho (by tauto))

theorem land_lor_low5 (p B : Nat) (hB : B < 32) :
    Nat.land (Nat.lor (Nat.land p 0xFFFFFFE0) B) 0x1F = B := by
  show (p &&& 0xFFFFFFE0 ||| B) &&& 0x1F = B
  rw [Nat.and_distrib_right, Nat.and_assoc]
  rw [show (0xFFFFFFE0 &&& 0x1F : Nat) = 0 from by decide]
  rw [Nat.and_zero, Nat.zero_or]
  rw [show (0x1F : Nat) = 2 ^ 5 - 1 from rfl]
  rw [Nat.and_pow_two_sub_one_eq_mod]
  omega

theorem memOnly_ctx_save (s : GState A) (c : Nat) : MemOnly s (geforce_ctx_save s c) := by
  unfold geforce_ctx_save
  dsimp only
  exact ((((memOnly_ramfc_write32 s c 0x0 _).trans
    (memOnly_ramfc_write32 _ c 0x4 _)).trans
    (memOnly_ramfc_write32 _ c 0x8 _)).trans
    (memOnly_ramfc_write32 _ c 0xC _)).trans
    (memOnly_ramfc_write32 _ c _ _)

theorem ctx_save_eq (t : GState A) (c : Nat) :
    geforce_ctx_save t c =
      geforce_ramfc_write32 (geforce_ramfc_write32 (geforce_ramfc_write32
        (geforce_ramfc_write32 (geforce_ramfc_write32 t c 0x0 t.fifo_cache1_dma_put)
          c 0x4 t.fifo_cache1_dma_get) c 0x8 t.fifo_cache1_ref_cnt)
        c 0xC t.fifo_cache1_dma_instance) c (if t.card_type < 0x40 then 0x2C else 0x30)
        t.fifo_cache1_semaphore := by
  unfold geforce_ctx_save
  dsimp only
  rw [(memOnly_ramfc_write32 t c 0x0 t.fifo_cache1_dma_put).dma_get]
  rw [((memOnly_ramfc_write32 t c 0x0 _).trans (memOnly_ramfc_write32 _ c 0x4 _)).ref_cnt]
  rw [(((memOnly_ramfc_write32 t c 0x0 _).trans (memOnly_ramfc_write32 _ c 0x4 _)).trans
    (memOnly_ramfc_write32 _ c 0x8 _)).dma_instance]
  rw [((((memOnly_ramfc_write32 t c 0x0 _).trans (memOnly_ramfc_write32 _ c 0x4 _)).trans
    (memOnly_ramfc_write32 _ c 0x8 _)).trans (memOnly_ramfc_write32 _ c 0xC _)).semaphore]

theorem ramfc_read32_congr (t u : GState A) (c off : Nat)
    (hm : t.mem = u.mem) (hms : t.memsize = u.memsize) (hf : t.ramin_flip = u.ramin_flip)
    (hc : t.card_type = u.card_type) (hr : t.fifo_ramfc = u.fifo_ramfc) :
    geforce_ramfc_read32 t c off = geforce_ramfc_read32 u c off := by
  unfold geforce_ramfc_read32 geforce_ramin_read32 geforce_vram_read32 geforce_ramfc_address
  rw [hm, hms, hf, hc, hr]

theorem ctx_switch_regs (t : GState A) (chid : Nat) :
    (geforce_ctx_switch t chid).fifo_cache1_dma_put =
      geforce_ramfc_read32 (geforce_ctx_save t (Nat.land t.fifo_cache1_push1 0x1F)) chid 0x0 ∧
    (geforce_ctx_switch t chid).fifo_cache1_dma_get =
      geforce_ramfc_read32 (geforce_ctx_save t (Nat.land t.fifo_cache1_push1 0x1F)) chid 0x4 ∧
    (geforce_ctx_switch t chid).fifo_cache1_ref_cnt =
      geforce_ramfc_read32 (geforce_ctx_save t (Nat.land t.fifo_cache1_push1 0x1F)) chid 0x8 ∧
    (geforce_ctx_switch t chid).fifo_cache1_dma_instance =
      geforce_ramfc_read32 (geforce_ctx_save t (Nat.land t.fifo_cache1_push1 0x1F)) chid 0xC ∧
    (geforce_ctx_switch t chid).fifo_cache1_semaphore =
      geforce_ramfc_read32 (geforce_ctx_save t (Nat.land t.fifo_cache1_push1 0x1F)) chid
        (if t.card_type < 0x40 then 0x2C else 0x30) ∧
    (geforce_ctx_switch t chid).fifo_cache1_push1 =
      Nat.lor (Nat.land t.fifo_cache1_push1 0xFFFFFFE0) chid := by
  unfold geforce_ctx_switch
  dsimp only
  refine ⟨rfl, ?_, ?_, ?_, ?_, ?_⟩
  · exact ramfc_read32_congr _ _ _ _ rfl rfl rfl rfl rfl
  · exact ramfc_read32_congr _ _ _ _ rfl rfl rfl rfl rfl
  · exact ramfc_read32_congr _ _ _ _ rfl rfl rfl rfl rfl
  · exact ramfc_read32_congr _ _ _ _ rfl rfl rfl rfl rfl
  · rw [(memOnly_ctx_save t _).push1]

theorem ctx_switch_config (t : GState A) (chid : Nat) :
    (geforce_ctx_switch t chid).card_type = t.card_type ∧
    (geforce_ctx_switch t chid).fifo_ramfc = t.fifo_ramfc ∧
    (geforce_ctx_switch t chid).ramin_flip = t.ramin_flip ∧
    (geforce_ctx_switch t chid).memsize = t.memsize ∧
    (geforce_ctx_switch t chid).mem =
      (geforce_ctx_save t (Nat.land t.fifo_cache1_push1 0x1F)).mem := by
  unfold geforce_ctx_switch
  dsimp only
  exact ⟨(memOnly_ctx_save t _).card_type, (memOnly_ctx_save t _).fifo_ramfc,
    (memOnly_ctx_save t _).ramin_flip, (memOnly_ctx_save t _).memsize, rfl⟩

theorem ctx_save_read_other (t : GState A) (c c2 off2 : Nat)
    (hc : c < 32) (hc2 : c2 < 32) (hne : c ≠ c2) (ho2 : off2 ≤ 0x30) (ho24 : off2 % 4 = 0)
    (hmem : t.memsize ≤ 4294967296)
    (hB : ∀ c1, c1 < 32 → ∀ o1, o1 ≤ 0x30 → o1 % 4 = 0 →
      Nat.xor (geforce_ramfc_address t c1 o1) t.ramin_flip + 3 < t.memsize) :
    geforce_ramfc_read32 (geforce_ctx_save t c) c2 off2 = geforce_ramfc_read32 t c2 off2 := by
  rw [ctx_save_eq]
  set sro := (if t.card_type < 0x40 then 0x2C else 0x30) with hsro
  have hsle : sro ≤ 0x30 := by rw [hsro]; split <;> decide
  have hs4 : sro % 4 = 0 := by rw [hsro]; split <;> decide
  set w1 := geforce_ramfc_write32 t c 0x0 t.fifo_cache1_dma_put with hw1
  set w2 := geforce_ramfc_write32 w1 c 0x4 t.fifo_cache1_dma_get with hw2
  set w3 := geforce_ramfc_write32 w2 c 0x8 t.fifo_cache1_ref_cnt with hw3
  set w4 := geforce_ramfc_write32 w3 c 0xC t.fifo_cache1_dma_instance with hw4
  have m1 : MemOnly t w1 := memOnly_ramfc_write32 t c 0x0 _
  have m2 : MemOnly t w2 := m1.trans (memOnly_ramfc_write32 w1 c 0x4 _)
  have m3 : MemOnly t w3 := m2.trans (memOnly_ramfc_write32 w2 c 0x8 _)
  have m4 : MemOnly t w4 := m3.trans (memOnly_ramfc_write32 w3 c 0xC _)
  have hAd : ∀ u : GState A, MemOnly t u → ∀ c1, c1 < 32 → ∀ o1, o1 ≤ 0x30 → o1 % 4 = 0 →
      Nat.xor (geforce_ramfc_address u c1 o1) u.ramin_flip + 3 < 4294967296 := by
    intro u hu c1 h1 o1 h2 h3
    rw [ramfc_address_memOnly hu, hu.ramin_flip]
    exact Nat.lt_of_lt_of_le (hB c1 h1 o1 h2 h3) hmem
  rw [ramfc_rw_disjoint w4 c sro c2 off2 _ hc hc2 hsle ho2 hs4 ho24 (Or.inl hne)
    (hAd w4 m4 c hc sro hsle hs4) (hAd w4 m4 c2 hc2 off2 ho2 ho24)]
  rw [ramfc_rw_disjoint w3 c 0xC c2 off2 _ hc hc2 (by decide) ho2 (by decide) ho24 (Or.inl hne)
    (hAd w3 m3 c hc 0xC (by decide) (by decide)) (hAd w3 m3 c2 hc2 off2 ho2 ho24)]
  rw [ramfc_rw_disjoint w2 c 0x8 c2 off2 _ hc hc2 (by decide) ho2 (by decide) ho24 (Or.inl hne)
    (hAd w2 m2 c hc 0x8 (by decide) (by decide)) (hAd w2 m2 c2 hc2 off2 ho2 ho24)]
  rw [ramfc_rw_disjoint w1 c 0x4 c2 off2 _ hc hc2 (by decide) ho2 (by decide) ho24 (Or.inl hne)
    (hAd w1 m1 c hc 0x4 (by decide) (by decide)) (hAd w1 m1 c2 hc2 off2 ho2 ho24)]
  rw [ramfc_rw_disjoint t c 0x0 c2 off2 _ hc hc2 (by decide) ho2 (by decide) ho24 (Or.inl hne)
    (hAd t (MemOnly.refl t) c hc 0x0 (by decide) (by decide))
    (hAd t (MemOnly.refl t) c2 hc2 off2 ho2 ho24)]

theorem ctx_save_read_self (t : GState A) (c : Nat) (hc : c < 32)
    (hmem : t.memsize ≤ 4294967296)
    (hB : ∀ c1, c1 < 32 → ∀ o1, o1 ≤ 0x30 → o1 % 4 = 0 →
      Nat.xor (geforce_ramfc_address t c1 o1) t.ramin_flip + 3 < t.memsize) :
    geforce_ramfc_read32 (geforce_ctx_save t c) c 0x0 = u32 t.fifo_cache1_dma_put ∧
    geforce_ramfc_read32 (geforce_ctx_save t c) c 0x4 = u32 t.fifo_cache1_dma_get ∧
    geforce_ramfc_read32 (geforce_ctx_save t c) c 0x8 = u32 t.fifo_cache1_ref_cnt ∧
    geforce_ramfc_read32 (geforce_ctx_save t c) c 0xC = u32 t.fifo_cache1_dma_instance ∧
    geforce_ramfc_read32 (geforce_ctx_save t c) c (if t.card_type < 0x40 then 0x2C else 0x30)
      = u32 t.fifo_cache1_semaphore := by
  rw [ctx_save_eq]
  set sro := (if t.card_type < 0x40 then 0x2C else 0x30) with hsro
  have hsle : sro ≤ 0x30 := by rw [hsro]; split <;> decide
  have hs4 : sro % 4 = 0 := by rw [hsro]; split <;> decide
  have hsge : 0x2C ≤ sro := by rw [hsro]; split <;> decide
  set w1 := geforce_ramfc_write32 t c 0x0 t.fifo_cache1_dma_put with hw1
  set w2 := geforce_ramfc_write32 w1 c 0x4 t.fifo_cache1_dma_get with hw2
  set w3 := geforce_ramfc_write32 w2 c 0x8 t.fifo_cache1_ref_cnt with hw3
  set w4 := geforce_ramfc_write32 w3 c 0xC t.fifo_cache1_dma_instance with hw4
  have m1 : MemOnly t w1 := memOnly_ramfc_write32 t c 0x0 _
  have m2 : MemOnly t w2 := m1.trans (memOnly_ramfc_write32 w1 c 0x4 _)
  have m3 : MemOnly t w3 := m2.trans (memOnly_ramfc_write32 w2 c 0x8 _)
  have m4 : MemOnly t w4 := m3.trans (memOnly_ramfc_write32 w3 c 0xC _)
  have hAd : ∀ u : GState A, MemOnly t u → ∀ o1, o1 ≤ 0x30 → o1 % 4 = 0 →
      Nat.xor (geforce_ramfc_address u c o1) u.ramin_flip + 3 < 4294967296 := by
    intro u hu o1 h2 h3
    rw [ramfc_address_memOnly hu, hu.ramin_flip]
    exact Nat.lt_of_lt_of_le (hB c hc o1 h2 h3) hmem
  have hSm : ∀ u : GState A, MemOnly t u → ∀ o1, o1 ≤ 0x30 → o1 % 4 = 0 →
      Nat.xor (geforce_ramfc_address u c o1) u.ramin_flip + 3 < u.memsize := by
    intro u hu o1 h2 h3
    rw [ramfc_address_memOnly hu, hu.ramin_flip, hu.memsize]
    exact hB c hc o1 h2 h3
  have hMem : ∀ u : GState A, MemOnly t u → u.memsize ≤ 4294967296 := by
    intro u hu
    rw [hu.memsize]
    exact hmem
  refine ⟨?_, ?_, ?_, ?_, ?_⟩
  · rw [ramfc_rw_disjoint w4 c sro c 0x0 _ hc hc hsle (by decide) hs4 (by decide)
      (Or.inr (by omega)) (hAd w4 m4 sro hsle hs4) (hAd w4 m4 0x0 (by decide) (by decide))]
    rw [ramfc_rw_disjoint w3 c 0xC c 0x0 _ hc hc (by decide) (by decide) (by decide) (by decide)
      (Or.inr (by decide)) (hAd w3 m3 0xC (by decide) (by decide))
      (hAd w3 m3 0x0 (by decide) (by decide))]
    rw [ramfc_rw_disjoint w2 c 0x8 c 0x0 _ hc hc (by decide) (by decide) (by decide) (by decide)
      (Or.inr (by decide)) (hAd w2 m2 0x8 (by decide) (by decide))
      (hAd w2 m2 0x0 (by decide) (by decide))]
    rw [ramfc_rw_disjoint w1 c 0x4 c 0x0 _ hc hc (by decide) (by decide) (by decide) (by decide)
      (Or.inr (by decide)) (hAd w1 m1 0x4 (by decide) (by decide))
      (hAd w1 m1 0x0 (by decide) (by decide))]
    exact ramfc_rw_same t c 0x0 _ (hSm t (MemOnly.refl t) 0x0 (by decide) (by decide)) hmem
  · rw [ramfc_rw_disjoint w4 c sro c 0x4 _ hc hc hsle (by decide) hs4 (by decide)
      (Or.inr (by omega)) (hAd w4 m4 sro hsle hs4) (hAd w4 m4 0x4 (by decide) (by decide))]
    rw [ramfc_rw_disjoint w3 c 0xC c 0x4 _ hc hc (by decide) (by decide) (by decide) (by decide)
      (Or.inr (by decide)) (hAd w3 m3 0xC (by decide) (by decide))
      (hAd w3 m3 0x4 (by decide) (by decide))]
    rw [ramfc_rw_disjoint w2 c 0x8 c 0x4 _ hc hc (by decide) (by decide) (by decide) (by decide)
      (Or.inr (by decide)) (hAd w2 m2 0x8 (by decide) (by decide))
      (hAd w2 m2 0x4 (by decide) (by decide))]
    exact ramfc_rw_same w1 c 0x4 _ (hSm w1 m1 0x4 (by decide) (by decide)) (hMem w1 m1)
  · rw [ramfc_rw_disjoint w4 c sro c 0x8 _ hc hc hsle (by decide) hs4 (by decide)
      (Or.inr (by omega)) (hAd w4 m4 sro hsle hs4) (hAd w4 m4 0x8 (by decide) (by decide))]
    rw [ramfc_rw_disjoint w3 c 0xC c 0x8 _ hc hc (by decide) (by decide) (by decide) (by decide)
      (Or.inr (by decide)) (hAd w3 m3 0xC (by decide) (by decide))
      (hAd w3 m3 0x8 (by decide) (by decide))]
    exact ramfc_rw_same w2 c 0x8 _ (hSm w2 m2 0x8 (by decide) (by decide)) (hMem w2 m2)
  · rw [ramfc_rw_disjoint w4 c sro c 0xC _ hc hc hsle (by decide) hs4 (by decide)
      (Or.inr (by omega)) (hAd w4 m4 sro hsle hs4) (hAd w4 m4 0xC (by decide) (by decide))]
    exact ramfc_rw_same w3 c 0xC _ (hSm w3 m3 0xC (by decide) (by decide)) (hMem w3 m3)
  · exact ramfc_rw_same w4 c sro _ (hSm w4 m4 sro hsle hs4) (hMem w4 m4)



theorem ctx_switch_restore (s u : GState A) (B : Nat)
    (hB : B < 32) (hAB : Nat.land s.fifo_cache1_push1 0x1F ≠ B)
    (hmm : u.mem = (geforce_ctx_save s (Nat.land s.fifo_cache1_push1 0x1F)).mem)
    (hct : u.card_type = s.card_type) (hfr : u.fifo_ramfc = s.fifo_ramfc)
    (hfl : u.ramin_flip = s.ramin_flip) (hms : u.memsize = s.memsize)
    (hpu : Nat.land u.fifo_cache1_push1 0x1F = B)
    (hmem : s.memsize ≤ 4294967296)
    (h1 : s.fifo_cache1_dma_put < 4294967296) (h2 : s.fifo_cache1_dma_get < 4294967296)
    (h3 : s.fifo_cache1_ref_cnt < 4294967296) (h4 : s.fifo_cache1_dma_instance < 4294967296)
    (h5 : s.fifo_cache1_semaphore < 4294967296)
    (hbound : ∀ c, c < 32 → ∀ off, off ≤ 0x30 → off % 4 = 0 →
      Nat.xor (geforce_ramfc_address s c off) s.ramin_flip + 3 < s.memsize) :
    (geforce_ctx_switch u (Nat.land s.fifo_cache1_push1 0x1F)).fifo_cache1_dma_put
      = s.fifo_cache1_dma_put ∧
    (geforce_ctx_switch u (Nat.land s.fifo_cache1_push1 0x1F)).fifo_cache1_dma_get
      = s.fifo_cache1_dma_get ∧
    (geforce_ctx_switch u (Nat.land s.fifo_cache1_push1 0x1F)).fifo_cache1_ref_cnt
      = s.fifo_cache1_ref_cnt ∧
    (geforce_ctx_switch u (Nat.land s.fifo_cache1_push1 0x1F)).fifo_cache1_dma_instance
      = s.fifo_cache1_dma_instance ∧
    (geforce_ctx_switch u (Nat.land s.fifo_cache1_push1 0x1F)).fifo_cache1_semaphore
      = s.fifo_cache1_semaphore := by
  have hAclt : Nat.land s.fifo_cache1_push1 0x1F < 32 := by
    show s.fifo_cache1_push1 &&& 0x1F < 32
    rw [show (0x1F : Nat) = 2 ^ 5 - 1 from rfl, Nat.and_pow_two_sub_one_eq_mod]
    omega
  set Ac := Nat.land s.fifo_cache1_push1 0x1F with hAc
  obtain ⟨g1, g2, g3, g4, g5, g6⟩ := ctx_switch_regs u Ac
  rw [hpu] at g1 g2 g3 g4 g5
  rw [hct] at g5
  have hmem2 : u.memsize ≤ 4294967296 := by rw [hms]; exact hmem
  have hbound2 : ∀ c, c < 32 → ∀ off, off ≤ 0x30 → off % 4 = 0 →
      Nat.xor (geforce_ramfc_address u c off) u.ramin_flip + 3 < u.memsize := by
    intro c hc off ho1 ho2
    have ha : geforce_ramfc_address u c off = geforce_ramfc_address s c off := by
      unfold geforce_ramfc_address
      rw [hct, hfr]
    rw [ha, hfl, hms]
    exact hbound c hc off ho1 ho2
  have hq : ∀ off, geforce_ramfc_read32 u Ac off =
      geforce_ramfc_read32 (geforce_ctx_save s Ac) Ac off := fun off =>
    ramfc_read32_congr u _ Ac off hmm
      (hms.trans ((memOnly_ctx_save s Ac).memsize).symm)
      (hfl.trans ((memOnly_ctx_save s Ac).ramin_flip).symm)
      (hct.trans ((memOnly_ctx_save s Ac).card_type).symm)
      (hfr.trans ((memOnly_ctx_save s Ac).fifo_ramfc).symm)
  obtain ⟨p1, p2, p3, p4, p5⟩ := ctx_save_read_self s Ac hAclt hmem hbound
  have hne : B ≠ Ac := fun h => hAB h.symm
  refine ⟨?_, ?_, ?_, ?_, ?_⟩
  · rw [g1, ctx_save_read_other u B Ac 0x0 hB hAclt hne (by decide) (by decide) hmem2 hbound2,
      hq 0x0, p1]
    exact u32_eq_of_lt h1
  · rw [g2, ctx_save_read_other u B Ac 0x4 hB hAclt hne (by decide) (by decide) hmem2 hbound2,
      hq 0x4, p2]
    exact u32_eq_of_lt h2
  · rw [g3, ctx_save_read_other u B Ac 0x8 hB hAclt hne (by decide) (by decide) hmem2 hbound2,
      hq 0x8, p3]
    exact u32_eq_of_lt h3
  · rw [g4, ctx_save_read_other u B Ac 0xC hB hAclt hne (by decide) (by decide) hmem2 hbound2,
      hq 0xC, p4]
    exact u32_eq_of_lt h4
  · rw [g5, ctx_save_read_other u B Ac (if s.card_type < 0x40 then 0x2C else 0x30) hB hAclt hne
      (by split <;> decide) (by split <;> decide) hmem2 hbound2,
      hq (if s.card_type < 0x40 then 0x2C else 0x30), p5]
    exact u32_eq_of_lt h5

/-- C5: switching away from the active channel A to a different channel B
saves A's five live pull registers (DMA put, DMA get, reference count,
DMA instance, semaphore) into A's RAMFC record, and switching back to A
restores all five exactly, no matter how channel B's run clobbered them —
provided every RAMFC slot lies inside VRAM and the registers are 32-bit
values. -/
theorem ctx_switch_roundtrip (s : GState A) (B r1 r2 r3 r4 r5 : Nat)
    (hB : B < 32) (hAB : Nat.land s.fifo_cache1_push1 0x1F ≠ B)
    (hmem : s.memsize ≤ 4294967296)
    (h1 : s.fifo_cache1_dma_put < 4294967296) (h2 : s.fifo_cache1_dma_get < 4294967296)
    (h3 : s.fifo_cache1_ref_cnt < 4294967296) (h4 : s.fifo_cache1_dma_instance < 4294967296)
    (h5 : s.fifo_cache1_semaphore < 4294967296)
    (hbound : ∀ c, c < 32 → ∀ off, off ≤ 0x30 → off % 4 = 0 →
      Nat.xor (geforce_ramfc_address s c off) s.ramin_flip + 3 < s.memsize) :
    (ctx_roundtrip_state s B r1 r2 r3 r4 r5).fifo_cache1_dma_put = s.fifo_cache1_dma_put ∧
    (ctx_roundtrip_state s B r1 r2 r3 r4 r5).fifo_cache1_dma_get = s.fifo_cache1_dma_get ∧
    (ctx_roundtrip_state s B r1 r2 r3 r4 r5).fifo_cache1_ref_cnt = s.fifo_cache1_ref_cnt ∧
    (ctx_roundtrip_state s B r1 r2 r3 r4 r5).fifo_cache1_dma_instance
      = s.fifo_cache1_dma_instance ∧
    (ctx_roundtrip_state s B r1 r2 r3 r4 r5).fifo_cache1_semaphore
      = s.fifo_cache1_semaphore := by
  unfold ctx_roundtrip_state
  dsimp only
  refine ctx_switch_restore s _ B hB hAB ?_ ?_ ?_ ?_ ?_ ?_ hmem h1 h2 h3 h4 h5 hbound
  · exact (ctx_switch_config s B).2.2.2.2
  · exact (ctx_switch_config s B).1
  · exact (ctx_switch_config s B).2.1
  · exact (ctx_switch_config s B).2.2.1
  · exact (ctx_switch_config s B).2.2.2.1
  · show Nat.land (geforce_ctx_switch s B).fifo_cache1_push1 0x1F = B
    rw [(ctx_switch_regs s B).2.2.2.2.2]
    exact land_lor_low5 _ _ hB


set_option maxRecDepth 40000 in
/-- Concrete instantiation of the context-switch roundtrip: on a reset
pre-NV40 state with RAMFC at 0x100, switching channel 0 out for channel 1,
clobbering the five pull registers, and switching back restores them. -/
theorem ctx_switch_roundtrip_witness :
    (∀ c, c < 32 → ∀ off, off ≤ 0x30 → off % 4 = 0 →
      Nat.xor (geforce_ramfc_address stC5 c off) stC5.ramin_flip + 3 < stC5.memsize) ∧
    ((ctx_roundtrip_state stC5 1 11 22 33 44 55).fifo_cache1_dma_put
        = stC5.fifo_cache1_dma_put ∧
      (ctx_roundtrip_state stC5 1 11 22 33 44 55).fifo_cache1_dma_get
        = stC5.fifo_cache1_dma_get ∧
      (ctx_roundtrip_state stC5 1 11 22 33 44 55).fifo_cache1_ref_cnt
        = stC5.fifo_cache1_ref_cnt ∧
      (ctx_roundtrip_state stC5 1 11 22 33 44 55).fifo_cache1_dma_instance
        = stC5.fifo_cache1_dma_instance ∧
      (ctx_roundtrip_state stC5 1 11 22 33 44 55).fifo_cache1_semaphore
        = stC5.fifo_cache1_semaphore) :=
  ⟨by decide, ctx_switch_roundtrip stC5 1 11 22 33 44 55 (by decide) (by decide) (by decide)
    (by decide) (by decide) (by decide) (by decide) (by decide) (by decide)⟩
